import Mathlib

/-! Pairing finalisation (`lib/Utils/validate-connection.js`).

A shallow embedding of `configureSuccessfulPairing` and
`encodeSignedDeviceIdentity`, followed by theorems about them.

Conventions of the embedding.

* A `Buffer` is a list of byte values (`Bytes`).
* A field of a decoded record that may be `null`/`undefined` is an `Option`.
  A `Buffer` is truthy even when empty, so `!x` on such a field is `x = none`.
* A JavaScript `throw` is the `error` side of `Except Thrown _`.
* The collaborators that live outside this file of the repository (schema
  decode/encode, keyed hash, curve sign/verify, base64, signal identity
  creation, the server domain constant) are the fields of `Env`.
* Records that the code mutates or copies live in a small object store
  (`Heap`), so that copying and in-place assignment are told apart.
-/

namespace ValidateConnection

/-- A `Buffer`: a sequence of byte values. -/
abbrev Bytes := List Nat

/-- The value caught by a `catch (error)` clause. -/
abbrev JsError := String

/-- The `attrs` object of a node: keys with their (possibly undefined) values. -/
abbrev Attrs := List (String × Option String)

/-- Property read `attrs.key`: `undefined` when the key is not there. -/
def Attrs.get (attrs : Attrs) (key : String) : Option String :=
  (attrs.lookup key).join

mutual
/-- A node of the wire stanza tree: `{tag, attrs, content}`. -/
inductive BinaryNode where
  | mk (tag : String) (attrs : Attrs) (content : NodeContent)
/-- The `content` of a node: nothing, raw bytes, text, or child nodes. -/
inductive NodeContent where
  | absent
  | bytes (b : Bytes)
  | text (s : String)
  | nodes (children : List BinaryNode)
end

/-- Field `tag` of a node. -/
def BinaryNode.tag : BinaryNode → String
  | .mk t _ _ => t

/-- Field `attrs` of a node. -/
def BinaryNode.attrs : BinaryNode → Attrs
  | .mk _ a _ => a

/-- Field `content` of a node. -/
def BinaryNode.content : BinaryNode → NodeContent
  | .mk _ _ c => c

/-- Modelled from the spec: `getBinaryNodeChild` of `WABinary` (not in this
file of the repository) locates a child node by tag. It is called on a
possibly undefined node; the result is undefined when the node is undefined,
when its content is not a list of nodes, or when no child carries the tag. -/
def getBinaryNodeChild (node : Option BinaryNode) (childTag : String) : Option BinaryNode :=
  match node with
  | none => none
  | some n =>
    match n.content with
    | .nodes children => children.find? (fun item => item.tag == childTag)
    | _ => none

/-- Modelled from the spec: `ADVEncryptionType`, the enum `{DEFAULT, HOSTED}`
of the schema definitions. -/
inductive ADVEncryptionType where
  | DEFAULT
  | HOSTED
  deriving DecidableEq, Repr

/-- Modelled from the spec: the decoded `ADVSignedDeviceIdentityHMAC` record
(the signed identity envelope). -/
structure ADVSignedDeviceIdentityHMAC where
  details : Option Bytes := none
  hmac : Option Bytes := none
  accountType : Option ADVEncryptionType := none
  deriving DecidableEq, Repr

/-- Modelled from the spec: the `ADVSignedDeviceIdentity` record (the account
identity). -/
structure ADVSignedDeviceIdentity where
  details : Option Bytes := none
  accountSignatureKey : Option Bytes := none
  accountSignature : Option Bytes := none
  deviceSignature : Option Bytes := none
  deriving DecidableEq, Repr

/-- Modelled from the spec: the decoded `ADVDeviceIdentity` record (the device
details); only the fields the code reads. -/
structure ADVDeviceIdentity where
  deviceType : Option ADVEncryptionType := none
  keyIndex : Option Nat := none
  deriving DecidableEq, Repr

/-- Modelled from the spec: the peer identity record made by
`createSignalIdentity`, binding an address to a public signature key. -/
structure SignalIdentity where
  name : Option String
  identifierKey : Bytes
  deriving DecidableEq, Repr

/-- A key pair `{public, private}`. -/
structure KeyPair where
  pub : Bytes
  priv : Bytes
  deriving DecidableEq, Repr

/-- The second argument of `configureSuccessfulPairing`:
`{ advSecretKey, signedIdentityKey, signalIdentities }`. -/
structure AuthCreds where
  advSecretKey : String
  signedIdentityKey : KeyPair
  signalIdentities : Option (List SignalIdentity)
  deriving DecidableEq, Repr

/-- The `data` option given to `new Boom(message, { data })`. -/
inductive BoomData where
  | none
  | stanza (s : BinaryNode)
  | error (e : JsError)

/-- What a call can throw: a `Boom` built by this file, a runtime
`TypeError` raised by `Buffer.concat` on a non-buffer entry, or an error thrown
by a collaborator and not caught here. -/
inductive Thrown where
  | boom (message : String) (data : BoomData)
  | typeError (message : String)
  | external (name : String)

/-- The external collaborators of the file. -/
structure Env where
  /-- `proto.ADVSignedDeviceIdentityHMAC.decode` -/
  decodeADVSignedDeviceIdentityHMAC : NodeContent → Except JsError ADVSignedDeviceIdentityHMAC
  /-- `proto.ADVSignedDeviceIdentity.decode` -/
  decodeADVSignedDeviceIdentity : Option Bytes → Except JsError ADVSignedDeviceIdentity
  /-- `proto.ADVDeviceIdentity.decode` -/
  decodeADVDeviceIdentity : Option Bytes → Except JsError ADVDeviceIdentity
  /-- `proto.ADVSignedDeviceIdentity.encode(record).finish()` -/
  encodeADVSignedDeviceIdentity : ADVSignedDeviceIdentity → Bytes
  /-- `hmacSign(buffer, key)` -/
  hmacSign : Bytes → Bytes → Bytes
  /-- `Buffer.from(text, 'base64')` -/
  base64Decode : String → Bytes
  /-- `Curve.verify(pubKey, message, signature)` -/
  verify : Bytes → Bytes → Bytes → Bool
  /-- `Curve.sign(privateKey, message)` -/
  sign : Bytes → Bytes → Bytes
  /-- `createSignalIdentity(jid, key)` -/
  createSignalIdentity : Option String → Bytes → Except JsError SignalIdentity
  /-- `S_WHATSAPP_NET`, the server domain -/
  S_WHATSAPP_NET : String

/-- `Buffer.concat(list)`: the entries joined in order; a `TypeError` when an
entry is not a buffer. -/
def bufferConcat : List (Option Bytes) → Except Thrown Bytes
  | [] => .ok []
  | none :: _ => .error (.typeError "The list argument must hold only Buffer or Uint8Array instances")
  | some b :: rest =>
    match bufferConcat rest with
    | .ok r => .ok (b ++ r)
    | .error e => .error e

/-- `Buffer.compare(a, b)`: lexicographic byte comparison, `-1`, `0` or `1`. -/
def bufferCompare : Bytes → Bytes → Int
  | [], [] => 0
  | [], _ :: _ => -1
  | _ :: _, [] => 1
  | a :: as, b :: bs =>
    if a < b then -1 else if b < a then 1 else bufferCompare as bs

/-- `x || fallback` on text: the fallback when `x` is undefined or empty. -/
def orElseText (x : Option String) (fallback : String) : String :=
  match x with
  | some s => if s = "" then fallback else s
  | none => fallback

/-- `x || y` where both sides may be undefined text. -/
def orElseOpt (x y : Option String) : Option String :=
  match x with
  | some s => if s = "" then y else some s
  | none => y

/-- The object store: records by reference. -/
abbrev Heap := List ADVSignedDeviceIdentity

/-- Reading a reference; a reference to nothing reads as the empty record,
which is what spreading `undefined` gives. -/
def heapRead (h : Heap) (r : Nat) : ADVSignedDeviceIdentity :=
  (h[r]?).getD {}

/-- A fresh object holding `o`; the new store and the new reference. -/
def heapAlloc (h : Heap) (o : ADVSignedDeviceIdentity) : Heap × Nat :=
  (h ++ [o], h.length)

/-- Assignment to a field of the object at `r`. -/
def heapUpdate (h : Heap) (r : Nat) (f : ADVSignedDeviceIdentity → ADVSignedDeviceIdentity) : Heap :=
  h.set r (f (heapRead h r))

/-- The function `encodeSignedDeviceIdentity(account, includeSignatureKey)`:
the store after the call and the bytes returned (or what is thrown). -/
def encodeSignedDeviceIdentity (env : Env) (h : Heap) (account : Nat)
    (includeSignatureKey : Bool) : Heap × Except Thrown Bytes :=
  -- account = { ...account }
  let (h1, account) := heapAlloc h (heapRead h account)
  let h2 :=
    if !includeSignatureKey then
      heapUpdate h1 account (fun o => { o with accountSignatureKey := none })
    else h1
  if (heapRead h2 account).details.isNone || (heapRead h2 account).accountSignature.isNone then
    (h2, .error (.boom "Invalid account data for encoding" .none))
  else
    (h2, .ok (env.encodeADVSignedDeviceIdentity (heapRead h2 account)))

/-- The `me` field of the credential update. -/
structure Me where
  id : Option String
  name : Option String
  lid : Option String
  deriving DecidableEq, Repr

/-- The object `authUpdate`. -/
structure AuthUpdate where
  account : ADVSignedDeviceIdentity
  me : Me
  signalIdentities : List SignalIdentity
  platform : String
  deriving DecidableEq, Repr

/-- The returned object `{ creds, reply }`. -/
structure PairingResult where
  creds : AuthUpdate
  reply : BinaryNode

/-- The function `configureSuccessfulPairing(stanza, creds)`. -/
def configureSuccessfulPairing (env : Env) (stanza : BinaryNode) (creds : AuthCreds) :
    Except Thrown PairingResult :=
  let msgId := stanza.attrs.get "id"
  let pairSuccessNode := getBinaryNodeChild (some stanza) "pair-success"
  let deviceIdentityNode := getBinaryNodeChild pairSuccessNode "device-identity"
  let platformNode := getBinaryNodeChild pairSuccessNode "platform"
  let deviceNode := getBinaryNodeChild pairSuccessNode "device"
  let businessNode := getBinaryNodeChild pairSuccessNode "biz"
  match deviceIdentityNode, deviceNode with
  | some deviceIdentityNode, some deviceNode =>
    let bizName := businessNode.bind (fun n => n.attrs.get "name")
    let jid := deviceNode.attrs.get "jid"
    let lid := deviceNode.attrs.get "lid"
    match env.decodeADVSignedDeviceIdentityHMAC deviceIdentityNode.content with
    | .error error => .error (.boom "Failed to decode device identity" (.error error))
    | .ok decodedIdentity =>
      let details := decodedIdentity.details
      let hmac := decodedIdentity.hmac
      let accountType := decodedIdentity.accountType
      let hmacPrefix : Bytes := if accountType = some .HOSTED then [0x06, 0x05] else []
      match bufferConcat [some hmacPrefix, details] with
      | .error e => .error e
      | .ok hmacMsg =>
        let advSign := env.hmacSign hmacMsg (env.base64Decode creds.advSecretKey)
        match hmac with
        | none => .error (.boom "Invalid account signature - HMAC mismatch" .none)
        | some hmacBytes =>
          if bufferCompare hmacBytes advSign ≠ 0 then
            .error (.boom "Invalid account signature - HMAC mismatch" .none)
          else
            match env.decodeADVSignedDeviceIdentity details with
            | .error error => .error (.boom "Failed to decode account details" (.error error))
            | .ok decodedAccount =>
              let accountSignatureKey := decodedAccount.accountSignatureKey
              let accountSignature := decodedAccount.accountSignature
              let deviceDetails := decodedAccount.details
              match env.decodeADVDeviceIdentity deviceDetails with
              | .error error => .error (.boom "Failed to decode device details" (.error error))
              | .ok deviceIdentity =>
                let accountSignaturePrefix : Bytes :=
                  if deviceIdentity.deviceType = some .HOSTED then [0x06, 0x05] else [0x06, 0x00]
                match bufferConcat
                    [some accountSignaturePrefix, deviceDetails, some creds.signedIdentityKey.pub] with
                | .error e => .error e
                | .ok accountMsg =>
                  match accountSignatureKey, accountSignature with
                  | some accountSignatureKey, some accountSignature =>
                    let isValid := env.verify accountSignatureKey accountMsg accountSignature
                    if !isValid then
                      .error (.boom "Failed to verify account signature - invalid curve signature" .none)
                    else
                      match bufferConcat [some [0x06, 0x01], deviceDetails,
                          some creds.signedIdentityKey.pub, some accountSignatureKey] with
                      | .error e => .error e
                      | .ok deviceMsg =>
                        -- the decoded record is an object; `account` refers to it
                        let (h0, account) := heapAlloc [] decodedAccount
                        let h1 := heapUpdate h0 account (fun o =>
                          { o with deviceSignature := some (env.sign creds.signedIdentityKey.priv deviceMsg) })
                        match env.createSignalIdentity jid accountSignatureKey with
                        | .error error =>
                          .error (.boom "Failed to create signal identity" (.error error))
                        | .ok identity =>
                          match encodeSignedDeviceIdentity env h1 account false with
                          | (_, .error e) => .error e
                          | (h2, .ok accountEnc) =>
                            let reply : BinaryNode :=
                              .mk "iq"
                                [("to", some env.S_WHATSAPP_NET), ("type", some "result"), ("id", msgId)]
                                (.nodes [
                                  .mk "pair-device-sign" []
                                    (.nodes [
                                      .mk "device-identity"
                                        [("key-index",
                                          some (orElseText (deviceIdentity.keyIndex.map toString) "0"))]
                                        (.bytes accountEnc)])])
                            let authUpdate : AuthUpdate :=
                              { account := heapRead h2 account
                                me := { id := jid, name := bizName, lid := orElseOpt lid jid }
                                signalIdentities := creds.signalIdentities.getD [] ++ [identity]
                                platform :=
                                  orElseText (platformNode.bind (fun n => n.attrs.get "name")) "macOS" }
                            .ok { creds := authUpdate, reply := reply }
                  | _, _ => .error (.boom "Missing account signature or key" .none)
  | _, _ =>
    .error (.boom "Missing device-identity or device in pair success node" (.stanza stanza))

/-- Two byte sequences of the same length that differ at exactly one position:
the second is the first with a single byte changed. -/
def singleByteChange (a b : Bytes) : Bool :=
  a.length == b.length && (List.zipWith (fun x y => x != y) a b).count true == 1

/-! ## The payload builder: definitions -/

/-- Modelled from the spec: `ClientConfig`, the description of the connecting
client: a 3-component version tuple, a browser descriptor (name, sub-type), an
optional country code and the optional full-history-sync flag. `browser.1` is
`config.browser[0]` and `browser.2` is `config.browser[1]`. -/
structure ClientConfig where
  version : Nat × Nat × Nat
  browser : String × String
  countryCode : Option String
  syncFullHistory : Option Bool
  deriving DecidableEq, Repr

/-- Modelled from the spec: `KeyMaterial`'s signed pre-key. -/
structure SignedPreKey where
  keyId : Nat
  keyPair : KeyPair
  signature : Bytes
  deriving DecidableEq, Repr

/-- Modelled from the spec: `KeyMaterial`, the first argument of
`generateRegistrationNode`. -/
structure KeyMaterial where
  registrationId : Nat
  signedPreKey : SignedPreKey
  signedIdentityKey : KeyPair
  deriving DecidableEq, Repr

/-- The members of `ClientPayload.WebInfo.WebSubPlatform` this file refers to. -/
inductive WebSubPlatform where
  | WEB_BROWSER
  | DARWIN
  | WIN32
  deriving DecidableEq, Repr

/-- The member of `ClientPayload.UserAgent.Platform` this file refers to. -/
inductive UserAgentPlatform where
  | WEB
  deriving DecidableEq, Repr

/-- The member of `ClientPayload.UserAgent.ReleaseChannel` this file refers to. -/
inductive ReleaseChannel where
  | RELEASE
  deriving DecidableEq, Repr

/-- The member of `ClientPayload.ConnectType` this file refers to. -/
inductive ConnectType where
  | WIFI_UNKNOWN
  deriving DecidableEq, Repr

/-- The member of `ClientPayload.ConnectReason` this file refers to. -/
inductive ConnectReason where
  | USER_ACTIVATED
  deriving DecidableEq, Repr

/-- A JavaScript number as far as this file needs it: an integer, or `NaN`. -/
inductive JsNumber where
  | int (n : Int)
  | nan
  deriving DecidableEq, Repr

/-- The `user` part of a decoded address: text, or already a number. -/
inductive JidUser where
  | text (s : String)
  | number (n : JsNumber)
  deriving DecidableEq, Repr

/-- Modelled from the spec: the result `{user, device}` of the address decoder. -/
structure DecodedJid where
  user : JidUser
  device : Option Nat
  deriving DecidableEq, Repr

/-- The version object `{primary, secondary, tertiary}`. -/
structure AppVersion where
  primary : Nat
  secondary : Nat
  tertiary : Nat
  deriving DecidableEq, Repr

/-- The object returned by `getUserAgent`. -/
structure UserAgent where
  appVersion : AppVersion
  platform : UserAgentPlatform
  releaseChannel : ReleaseChannel
  osVersion : String
  device : String
  osBuildNumber : String
  localeLanguageIso6391 : String
  mnc : String
  mcc : String
  localeCountryIso31661Alpha2 : String
  deriving DecidableEq, Repr

/-- The object returned by `getWebInfo`. -/
structure WebInfo where
  webSubPlatform : WebSubPlatform
  deriving DecidableEq, Repr

/-- The object `historySyncConfig` of the companion properties. -/
structure HistorySyncConfig where
  storageQuotaMb : Nat
  inlineInitialPayloadInE2EeMsg : Bool
  recentSyncDaysLimit : Nat
  supportCallLogHistory : Bool
  supportBotUserAgentChatHistory : Bool
  supportCagReactionsAndPolls : Bool
  supportBizHostedMsg : Bool
  supportRecentSyncChunkMessageCountTuning : Bool
  supportHostedGroupMsg : Bool
  supportFbidBotChatHistory : Bool
  supportAddOnHistorySyncMigration : Bool
  supportMessageAssociation : Bool
  supportGroupHistory : Bool
  onDemandReady : Bool
  supportGuestChat : Bool
  deriving DecidableEq, Repr

/-- The object `companion` (a `DeviceProps` record). `platformType` is what
`getPlatformType` returned: an enum value, or undefined. -/
structure DeviceProps where
  os : String
  platformType : Option Nat
  requireFullSync : Bool
  historySyncConfig : HistorySyncConfig
  version : AppVersion
  deriving DecidableEq, Repr

/-- The object `devicePairingData`. -/
structure DevicePairingData where
  buildHash : Bytes
  deviceProps : Bytes
  eRegid : Bytes
  eKeytype : Bytes
  eIdent : Bytes
  eSkeyId : Bytes
  eSkeyVal : Bytes
  eSkeySig : Bytes
  deriving DecidableEq, Repr

/-- The client payload object; a field that was never assigned is `none`. -/
structure ClientPayload where
  connectType : ConnectType
  connectReason : ConnectReason
  userAgent : UserAgent
  webInfo : Option WebInfo := none
  passive : Option Bool := none
  pull : Option Bool := none
  username : Option JsNumber := none
  device : Option Nat := none
  lidDbMigrated : Option Bool := none
  devicePairingData : Option DevicePairingData := none
  deriving DecidableEq, Repr

/-- The collaborators of the payload builder that live outside this file. -/
structure PayloadEnv where
  /-- `jidDecode(jid)` of `WABinary` -/
  jidDecode : String → DecodedJid
  /-- the built-in `parseInt(text, radix)` -/
  parseInt : String → Nat → JsNumber
  /-- the built-in `text.toUpperCase()` -/
  toUpperCase : String → String
  /-- property read `proto.DeviceProps.PlatformType[name]`: undefined when the
  enum has no member of that name -/
  PlatformType : String → Option Nat
  /-- `createHash('md5').update(text).digest()` -/
  md5 : String → Bytes
  /-- `proto.DeviceProps.encode(record).finish()` -/
  encodeDeviceProps : DeviceProps → Bytes
  /-- `encodeBigEndian(value, width)` of `generics`; the width may be left out -/
  encodeBigEndian : Nat → Option Nat → Except Thrown Bytes
  /-- `KEY_BUNDLE_TYPE` of `Defaults` -/
  KEY_BUNDLE_TYPE : Bytes

/-- `x || fallback` on numbers: the fallback when `x` is undefined or zero. -/
def orElseNat (x : Option Nat) (fallback : Nat) : Nat :=
  match x with
  | some n => if n = 0 then fallback else n
  | none => fallback

/-- `x || fallback` on an optional boolean: the fallback unless `x` is `true`. -/
def orElseBool (x : Option Bool) (fallback : Bool) : Bool :=
  match x with
  | some true => true
  | _ => fallback

/-- `x || fallback` on an optional enum value: the fallback when `x` is
undefined or zero. -/
def orElseEnum (x fallback : Option Nat) : Option Nat :=
  match x with
  | some n => if n = 0 then fallback else some n
  | none => fallback

/-- `text.includes(pattern)`: the pattern occurs somewhere in the text. -/
def includes (text pattern : String) : Bool :=
  text.data.tails.any (fun t => pattern.data.isPrefixOf t)

/-- Most significant byte first: the `width` low bytes of `value`. -/
def bigEndianBytes (value width : Nat) : Bytes :=
  (List.range width).reverse.map (fun i => value / 256 ^ i % 256)

/-- Modelled from the spec: `encodeBigEndian` of `generics` (not among the
source files) encodes a non-negative integer into a fixed-width byte sequence,
most significant byte first, zero-padded on the left; it fails with
`ValueOutOfRange` if the integer does not fit in the requested width. The width
used when none is given is a parameter. -/
def encodeBigEndian (defaultWidth : Nat) (value : Nat) (width : Option Nat) :
    Except Thrown Bytes :=
  let w := width.getD defaultWidth
  if value < 256 ^ w then .ok (bigEndianBytes value w) else .error (.external "ValueOutOfRange")

/-- `array.join('.')` on the version tuple. -/
def joinVersion (v : Nat × Nat × Nat) : String :=
  toString v.1 ++ "." ++ toString v.2.1 ++ "." ++ toString v.2.2

/-- Modelled from the spec: `proto.ClientPayload.fromObject` builds the typed
payload record from a plain object with the same fields. -/
def ClientPayload.fromObject (payload : ClientPayload) : ClientPayload := payload

/-- The function `getUserAgent(config)`. -/
def getUserAgent (config : ClientConfig) : UserAgent :=
  { appVersion :=
      { primary := config.version.1
        secondary := config.version.2.1
        tertiary := config.version.2.2 }
    platform := .WEB
    releaseChannel := .RELEASE
    osVersion := "macOS 13.0"
    device := "Desktop"
    osBuildNumber := "22A380"
    localeLanguageIso6391 := "en"
    mnc := "000"
    mcc := "000"
    localeCountryIso31661Alpha2 := orElseText config.countryCode "US" }

/-- The function `getWebInfo(config)`. -/
def getWebInfo (config : ClientConfig) : WebInfo :=
  let webSubPlatform := WebSubPlatform.WEB_BROWSER
  let browserName := config.browser.1
  let webSubPlatform :=
    if config.syncFullHistory = some true then
      if browserName = "Mac OS" ∨ browserName = "macOS" then WebSubPlatform.DARWIN
      else if browserName = "Windows" then WebSubPlatform.WIN32
      else webSubPlatform
    else webSubPlatform
  { webSubPlatform := webSubPlatform }

/-- The function `getClientPayload(config)`. -/
def getClientPayload (config : ClientConfig) : ClientPayload :=
  let payload : ClientPayload :=
    { connectType := .WIFI_UNKNOWN
      connectReason := .USER_ACTIVATED
      userAgent := getUserAgent config }
  { payload with webInfo := some (getWebInfo config) }

/-- The function `generateLoginNode(userJid, config)`. -/
def generateLoginNode (penv : PayloadEnv) (userJid : String) (config : ClientConfig) :
    ClientPayload :=
  let user := (penv.jidDecode userJid).user
  let device := (penv.jidDecode userJid).device
  let payload : ClientPayload :=
    { getClientPayload config with
      passive := some true
      pull := some true
      username := some (match user with
                        | .text s => penv.parseInt s 10
                        | .number n => n)
      device := some (orElseNat device 0)
      lidDbMigrated := some false }
  ClientPayload.fromObject payload

/-- The function `getPlatformType(platform)`. -/
def getPlatformType (penv : PayloadEnv) (platform : String) : Option Nat :=
  let platformUpper := penv.toUpperCase platform
  if includes platformUpper "MAC" || includes platformUpper "DARWIN" then
    penv.PlatformType "DARWIN"
  else
    orElseEnum (penv.PlatformType platformUpper) (penv.PlatformType "CHROME")

/-- The object `companion` built inside `generateRegistrationNode`
(lines 102 to 128 of the source). -/
def companion (penv : PayloadEnv) (config : ClientConfig) : DeviceProps :=
  { os := if config.browser.1 = "Mac OS" then "macOS" else config.browser.1
    platformType := getPlatformType penv config.browser.2
    requireFullSync := orElseBool config.syncFullHistory true
    historySyncConfig :=
      { storageQuotaMb := 10240
        inlineInitialPayloadInE2EeMsg := true
        recentSyncDaysLimit := 90
        supportCallLogHistory := true
        supportBotUserAgentChatHistory := true
        supportCagReactionsAndPolls := true
        supportBizHostedMsg := true
        supportRecentSyncChunkMessageCountTuning := true
        supportHostedGroupMsg := true
        supportFbidBotChatHistory := true
        supportAddOnHistorySyncMigration := true
        supportMessageAssociation := true
        supportGroupHistory := true
        onDemandReady := true
        supportGuestChat := true }
    version :=
      { primary := config.version.1
        secondary := config.version.2.1
        tertiary := config.version.2.2 } }

/-- The function `generateRegistrationNode(keys, config)`; it throws what
`encodeBigEndian` throws. -/
def generateRegistrationNode (penv : PayloadEnv) (keys : KeyMaterial) (config : ClientConfig) :
    Except Thrown ClientPayload :=
  let appVersionBuf := penv.md5 (joinVersion config.version)
  let companionProto := penv.encodeDeviceProps (companion penv config)
  match penv.encodeBigEndian keys.registrationId none with
  | .error e => .error e
  | .ok eRegid =>
    match penv.encodeBigEndian keys.signedPreKey.keyId (some 3) with
    | .error e => .error e
    | .ok eSkeyId =>
      let registerPayload : ClientPayload :=
        { getClientPayload config with
          passive := some false
          pull := some false
          devicePairingData := some
            { buildHash := appVersionBuf
              deviceProps := companionProto
              eRegid := eRegid
              eKeytype := penv.KEY_BUNDLE_TYPE
              eIdent := keys.signedIdentityKey.pub
              eSkeyId := eSkeyId
              eSkeyVal := keys.signedPreKey.keyPair.pub
              eSkeySig := keys.signedPreKey.signature } }
      .ok (ClientPayload.fromObject registerPayload)

/-! ## A concrete instance, for running the definitions -/

/-- A small instance of the collaborators: the envelope is read as a type
byte, a length byte, the details and then the keyed hash; the keyed hash of a
message is the message followed by the key; a signature of a message is the
message followed by the key. -/
def demoEnv : Env where
  decodeADVSignedDeviceIdentityHMAC := fun c =>
    match c with
    | .bytes (t :: n :: rest) =>
      .ok { details := some (rest.take n), hmac := some (rest.drop n),
            accountType := if t = 1 then some .HOSTED else none }
    | _ => .error "illegal buffer"
  decodeADVSignedDeviceIdentity := fun b =>
    match b with
    | some [10] =>
      .ok { details := some [20], accountSignatureKey := some [30],
            accountSignature := some [6, 0, 20, 7, 30] }
    | some [11] =>
      .ok { details := some [20], accountSignatureKey := none,
            accountSignature := some [6, 0, 20, 7, 30] }
    | some [12] =>
      .ok { details := some [20], accountSignatureKey := some [30],
            accountSignature := some [1] }
    | some [13] =>
      .ok { details := some [21], accountSignatureKey := some [30],
            accountSignature := some [6, 0, 21, 7, 30] }
    | _ => .error "index out of range"
  decodeADVDeviceIdentity := fun b =>
    match b with
    | some [20] => .ok { deviceType := none, keyIndex := some 3 }
    | _ => .error "invalid wire type"
  encodeADVSignedDeviceIdentity := fun a =>
    a.details.getD [] ++ a.accountSignatureKey.getD [] ++ a.accountSignature.getD []
      ++ a.deviceSignature.getD []
  hmacSign := fun m k => m ++ k
  base64Decode := fun _ => [9]
  verify := fun pub m s => s == m ++ pub
  sign := fun priv m => m ++ priv
  createSignalIdentity := fun jid key =>
    match jid with
    | some j => .ok { name := some j, identifierKey := key }
    | none => .error "no address"
  S_WHATSAPP_NET := "@s.whatsapp.net"

/-- An inbound stanza whose `device-identity` holds the given bytes. -/
def demoStanzaWith (identityBytes : Bytes) : BinaryNode :=
  .mk "iq" [("id", some "m1")] (.nodes [
    .mk "pair-success" [] (.nodes [
      .mk "device-identity" [] (.bytes identityBytes),
      .mk "device" [("jid", some "1@s.whatsapp.net")] .absent])])

/-- A well-formed inbound stanza for `demoEnv` and `demoCreds`. -/
def demoStanza : BinaryNode := demoStanzaWith [0, 1, 10, 10, 9]

/-- A local credential set. -/
def demoCreds : AuthCreds :=
  { advSecretKey := "c2VjcmV0", signedIdentityKey := { pub := [7], priv := [7] },
    signalIdentities := none }

/-- The countersigned record produced on `demoStanza`. -/
def demoAccount : ADVSignedDeviceIdentity :=
  { details := some [20], accountSignatureKey := some [30],
    accountSignature := some [6, 0, 20, 7, 30],
    deviceSignature := some [6, 1, 20, 7, 30, 7] }

/-- The result on `demoStanza`. -/
def demoResult : PairingResult :=
  { creds :=
      { account := demoAccount
        me := { id := some "1@s.whatsapp.net", name := none, lid := some "1@s.whatsapp.net" }
        signalIdentities := [{ name := some "1@s.whatsapp.net", identifierKey := [30] }]
        platform := "macOS" }
    reply :=
      .mk "iq" [("to", some "@s.whatsapp.net"), ("type", some "result"), ("id", some "m1")]
        (.nodes [.mk "pair-device-sign" []
          (.nodes [.mk "device-identity" [("key-index", some "3")]
            (.bytes [20, 6, 0, 20, 7, 30, 6, 1, 20, 7, 30, 7])])]) }

/-- Upper-casing of the letters `a` to `z`, character by character. -/
def upperAscii (text : String) : String :=
  String.mk (text.data.map Char.toUpper)

/-- Decimal digits read as a number; `NaN` when the text is empty or holds
anything else. -/
def digitsToNumber (text : String) : JsNumber :=
  if text.data ≠ [] ∧ text.data.all Char.isDigit then
    .int (text.data.foldl (fun acc c => 10 * acc + (c.toNat - 48)) 0 : Nat)
  else .nan

/-- A small instance of the payload builder's collaborators: the address is
split at `@`, the digest is the first sixteen character codes of the text
(zero-padded), the
companion properties are encoded as three bytes, and the enum table has nine
members. -/
def demoPayloadEnv : PayloadEnv where
  jidDecode := fun jid =>
    { user := .text (String.mk (jid.data.takeWhile (fun c => c != '@'))), device := none }
  parseInt := fun text _ => digitsToNumber text
  toUpperCase := upperAscii
  PlatformType := fun name =>
    ([("UNKNOWN", 0), ("CHROME", 1), ("FIREFOX", 2), ("IE", 3), ("OPERA", 4), ("SAFARI", 5),
      ("EDGE", 6), ("DESKTOP", 7), ("DARWIN", 8)] : List (String × Nat)).lookup name
  md5 := fun text => (text.data.map Char.toNat ++ List.replicate 16 0).take 16
  encodeDeviceProps := fun c =>
    [c.platformType.getD 255, if c.requireFullSync then 1 else 0, c.version.primary % 256]
  encodeBigEndian := encodeBigEndian 4
  KEY_BUNDLE_TYPE := [5]

/-- A client configuration. -/
def demoConfig : ClientConfig :=
  { version := (2, 3000, 1), browser := ("Mac OS", "Desktop"), countryCode := none,
    syncFullHistory := some false }

/-- A configuration asking for full history sync from a `Windows` browser. -/
def demoConfigWindows : ClientConfig :=
  { version := (2, 3000, 1), browser := ("Windows", "Desktop"), countryCode := none,
    syncFullHistory := some true }

/-- The same with the browser name in lower case. -/
def demoConfigLower : ClientConfig :=
  { version := (2, 3000, 1), browser := ("windows", "Desktop"), countryCode := none,
    syncFullHistory := some true }

/-- Local key material. -/
def demoKeys : KeyMaterial :=
  { registrationId := 258
    signedPreKey := { keyId := 1, keyPair := { pub := [41], priv := [42] }, signature := [43] }
    signedIdentityKey := { pub := [7], priv := [8] } }

/-- The stanza `demoStanza` with an empty `lid` attribute on the `device` node
and an empty `name` attribute on a `platform` node. -/
def demoStanzaEmptyAttrs : BinaryNode :=
  .mk "iq" [("id", some "m1")] (.nodes [
    .mk "pair-success" [] (.nodes [
      .mk "device-identity" [] (.bytes [0, 1, 10, 10, 9]),
      .mk "platform" [("name", some "")] .absent,
      .mk "device" [("jid", some "1@s.whatsapp.net"), ("lid", some "")] .absent])])

/-- The collaborators of `demoEnv`, except that the empty byte sequence decodes
to the envelope with no field set (a schema message with all fields optional
and none on the wire). -/
def bareEnvelopeEnv : Env :=
  { demoEnv with
    decodeADVSignedDeviceIdentityHMAC := fun c =>
      match c with
      | .bytes [] => .ok {}
      | other => demoEnv.decodeADVSignedDeviceIdentityHMAC other }

/-- The collaborators of `demoEnv`, except that the keyed hash ignores the
message (so any two messages collide) and every byte sequence decodes to the
same account record. -/
def collidingEnv : Env :=
  { demoEnv with
    hmacSign := fun _ key => key
    decodeADVSignedDeviceIdentity := fun _ =>
      .ok { details := some [20], accountSignatureKey := some [30],
            accountSignature := some [6, 0, 20, 7, 30] } }

/-- The object `{ creds: authUpdate, reply }` assembled at the end of
`configureSuccessfulPairing`, as a function of the values the stages produced
(lines 242 to 283 of the source). -/
def assembledResult (env : Env) (stanza : BinaryNode) (creds : AuthCreds) (dn : BinaryNode)
    (account : ADVSignedDeviceIdentity) (dd : Bytes) (di : ADVDeviceIdentity) (ask : Bytes)
    (identity : SignalIdentity) : PairingResult :=
  let pairSuccessNode := getBinaryNodeChild (some stanza) "pair-success"
  let deviceSignature :=
    env.sign creds.signedIdentityKey.priv ([0x06, 0x01] ++ dd ++ creds.signedIdentityKey.pub ++ ask)
  { creds :=
      { account := { account with deviceSignature := some deviceSignature }
        me := { id := dn.attrs.get "jid"
                name := (getBinaryNodeChild pairSuccessNode "biz").bind (fun n => n.attrs.get "name")
                lid := orElseOpt (dn.attrs.get "lid") (dn.attrs.get "jid") }
        signalIdentities := creds.signalIdentities.getD [] ++ [identity]
        platform := orElseText
          ((getBinaryNodeChild pairSuccessNode "platform").bind (fun n => n.attrs.get "name"))
          "macOS" }
    reply :=
      .mk "iq"
        [("to", some env.S_WHATSAPP_NET), ("type", some "result"), ("id", stanza.attrs.get "id")]
        (.nodes [.mk "pair-device-sign" []
          (.nodes [.mk "device-identity"
            [("key-index", some (orElseText (di.keyIndex.map toString) "0"))]
            (.bytes (env.encodeADVSignedDeviceIdentity
              { account with deviceSignature := some deviceSignature,
                             accountSignatureKey := none }))])]) }

/-! ## General facts -/

/-- The decimal text of a number is never the empty string. -/
theorem natToString_ne_empty (n : Nat) : toString n ≠ "" := by
  show Nat.repr n ≠ ""
  intro h
  have h2 : (Nat.repr n).length = 0 := by rw [h]; rfl
  have h3 : (Nat.toDigits 10 n).length = 0 := by
    simpa [Nat.repr, String.length, List.asString] using h2
  unfold Nat.toDigits at h3
  rw [Nat.toDigitsCore] at h3
  split at h3
  · simp at h3
  · rw [Nat.toDigitsCore_lens_eq] at h3
    omega

/-- `Buffer.compare` returns zero exactly on equal byte sequences. -/
theorem bufferCompare_eq_zero_iff (a b : Bytes) : bufferCompare a b = 0 ↔ a = b := by
  induction a generalizing b with
  | nil => cases b <;> simp [bufferCompare]
  | cons x xs ih =>
    cases b with
    | nil => simp [bufferCompare]
    | cons y ys =>
      simp only [bufferCompare, List.cons.injEq]
      by_cases h1 : x < y
      · simp only [h1, if_true]
        constructor
        · intro h; omega
        · intro h; omega
      · by_cases h2 : y < x
        · simp only [h1, h2, if_true, if_false]
          constructor
          · intro h; omega
          · intro h; omega
        · simp only [h1, h2, if_false, ih]
          constructor
          · intro h; exact ⟨by omega, h⟩
          · intro h; exact h.2

theorem bufferConcat_two (p : Bytes) (d : Option Bytes) :
    bufferConcat [some p, d] =
      match d with
      | some b => .ok (p ++ b)
      | none => .error (.typeError "The list argument must hold only Buffer or Uint8Array instances") := by
  cases d <;> simp [bufferConcat]

theorem bufferConcat_three (p q : Bytes) (d : Option Bytes) :
    bufferConcat [some p, d, some q] =
      match d with
      | some b => .ok (p ++ b ++ q)
      | none => .error (.typeError "The list argument must hold only Buffer or Uint8Array instances") := by
  cases d <;> simp [bufferConcat]

theorem bufferConcat_four (p q s : Bytes) (d : Option Bytes) :
    bufferConcat [some p, d, some q, some s] =
      match d with
      | some b => .ok (p ++ b ++ q ++ s)
      | none => .error (.typeError "The list argument must hold only Buffer or Uint8Array instances") := by
  cases d <;> simp [bufferConcat]

/-- The caller's record is the same object after `encodeSignedDeviceIdentity`
as before: the call works on a fresh copy. -/
theorem encodeSignedDeviceIdentity_read (env : Env) (h : Heap) (r : Nat) (b : Bool) :
    heapRead (encodeSignedDeviceIdentity env h r b).1 r = heapRead h r := by
  have key : ∀ h2 : Heap,
      (h2 = h ++ [heapRead h r] ∨
        h2 = (h ++ [heapRead h r]).set h.length
          { heapRead (h ++ [heapRead h r]) h.length with accountSignatureKey := none }) →
      heapRead h2 r = heapRead h r := by
    intro h2 hh
    rcases Nat.lt_trichotomy r h.length with hlt | heq | hgt
    · rcases hh with rfl | rfl
      · simp [heapRead, List.getElem?_append_left hlt]
      · simp [heapRead, List.getElem?_set, List.getElem?_append_left hlt,
          Nat.ne_of_gt hlt]
    · subst heq
      rcases hh with rfl | rfl
      · simp [heapRead]
      · simp [heapRead, List.getElem?_set]
    · have e0 : heapRead h r = {} := by
        simp [heapRead, List.getElem?_eq_none (Nat.le_of_lt hgt)]
      rw [e0] at hh ⊢
      have h1 : (h ++ [({} : ADVSignedDeviceIdentity)]).length ≤ r := by simp; omega
      rcases hh with rfl | rfl
      · simp only [heapRead, List.getElem?_eq_none h1, Option.getD_none]
      · simp only [heapRead, List.getElem?_set, Nat.ne_of_lt hgt, if_false,
          List.getElem?_eq_none h1, Option.getD_none]
  unfold encodeSignedDeviceIdentity
  simp only [heapAlloc, heapUpdate]
  cases b
  · simp only [Bool.not_false, if_true]
    split <;> exact key _ (Or.inr rfl)
  · simp only [Bool.not_true, Bool.false_eq_true, if_false]
    split <;> exact key _ (Or.inl rfl)

/-- What the store holds for the account record after the countersignature
assignment and the re-encoding call, and what the re-encoding yields. -/
theorem encode_after_countersign (env : Env) (a : ADVSignedDeviceIdentity) (sig : Bytes) :
    encodeSignedDeviceIdentity env
        (heapUpdate (heapAlloc [] a).1 (heapAlloc [] a).2
          (fun o => { o with deviceSignature := some sig })) (heapAlloc [] a).2 false =
      ([{ a with deviceSignature := some sig },
        { a with deviceSignature := some sig, accountSignatureKey := none }],
       if a.details.isNone || a.accountSignature.isNone then
         .error (.boom "Invalid account data for encoding" .none)
       else
         .ok (env.encodeADVSignedDeviceIdentity
           { a with deviceSignature := some sig, accountSignatureKey := none })) := by
  simp only [encodeSignedDeviceIdentity, heapAlloc, heapUpdate, heapRead]
  simp
  split <;> simp_all

/-- Every successful run of `configureSuccessfulPairing` went through all the
stages: the values each stage produced exist and the result is built from them. -/
theorem configureSuccessfulPairing_ok_inv {env : Env} {stanza : BinaryNode} {creds : AuthCreds}
    {r : PairingResult} (h : configureSuccessfulPairing env stanza creds = .ok r) :
    ∃ din dn e d account dd di ask asig identity,
      getBinaryNodeChild (getBinaryNodeChild (some stanza) "pair-success") "device-identity"
        = some din ∧
      getBinaryNodeChild (getBinaryNodeChild (some stanza) "pair-success") "device" = some dn ∧
      env.decodeADVSignedDeviceIdentityHMAC din.content = .ok e ∧
      e.details = some d ∧
      e.hmac = some (env.hmacSign
        ((if e.accountType = some .HOSTED then [0x06, 0x05] else []) ++ d)
        (env.base64Decode creds.advSecretKey)) ∧
      env.decodeADVSignedDeviceIdentity (some d) = .ok account ∧
      account.details = some dd ∧
      account.accountSignatureKey = some ask ∧
      account.accountSignature = some asig ∧
      env.decodeADVDeviceIdentity (some dd) = .ok di ∧
      env.verify ask
        ((if di.deviceType = some .HOSTED then [0x06, 0x05] else [0x06, 0x00]) ++ dd
          ++ creds.signedIdentityKey.pub) asig = true ∧
      env.createSignalIdentity (dn.attrs.get "jid") ask = .ok identity ∧
      r.creds.account = { account with
        deviceSignature := some (env.sign creds.signedIdentityKey.priv
          ([0x06, 0x01] ++ dd ++ creds.signedIdentityKey.pub ++ ask)) } ∧
      r.creds.me = { id := dn.attrs.get "jid",
                     name := (getBinaryNodeChild (getBinaryNodeChild (some stanza) "pair-success")
                       "biz").bind (fun n => n.attrs.get "name"),
                     lid := orElseOpt (dn.attrs.get "lid") (dn.attrs.get "jid") } ∧
      r.creds.signalIdentities = creds.signalIdentities.getD [] ++ [identity] ∧
      r.creds.platform = orElseText
        ((getBinaryNodeChild (getBinaryNodeChild (some stanza) "pair-success") "platform").bind
          (fun n => n.attrs.get "name")) "macOS" ∧
      r.reply = .mk "iq"
        [("to", some env.S_WHATSAPP_NET), ("type", some "result"), ("id", stanza.attrs.get "id")]
        (.nodes [.mk "pair-device-sign" []
          (.nodes [.mk "device-identity"
            [("key-index", some (orElseText (di.keyIndex.map toString) "0"))]
            (.bytes (env.encodeADVSignedDeviceIdentity { account with
              deviceSignature := some (env.sign creds.signedIdentityKey.priv
                ([0x06, 0x01] ++ dd ++ creds.signedIdentityKey.pub ++ ask)),
              accountSignatureKey := none }))])]) := by
  unfold configureSuccessfulPairing at h
  simp only [bufferConcat_two, bufferConcat_three, bufferConcat_four] at h
  split at h
  · rename_i din dn hdin hdn
    split at h
    · simp at h
    · rename_i e he
      split at h
      · simp at h
      · rename_i hmacMsg hcat
        generalize hp1 : (if e.accountType = some ADVEncryptionType.HOSTED then
          ([0x06, 0x05] : Bytes) else []) = p1 at h hcat
        cases hd : e.details with
        | none => simp [hd] at hcat
        | some d =>
          simp only [hd, Except.ok.injEq] at hcat h
          subst hcat
          cases hh : e.hmac with
          | none => simp [hh] at h
          | some hm =>
            simp only [hh] at h
            split at h
            · simp at h
            · rename_i hcmp
              have hcmp2 := (bufferCompare_eq_zero_iff _ _).mp (not_not.mp hcmp)
              split at h
              · simp at h
              · rename_i account hacc
                split at h
                · simp at h
                · rename_i di hdi
                  generalize hp2 : (if di.deviceType = some ADVEncryptionType.HOSTED then
                    ([0x06, 0x05] : Bytes) else [0x06, 0x00]) = p2 at h
                  cases hdd : account.details with
                  | none => simp [hdd] at h
                  | some dd =>
                    simp only [hdd] at h hdi
                    split at h
                    · rename_i ask asig hask hasig
                      split at h
                      · simp at h
                      · rename_i hver
                        split at h
                        · simp at h
                        · rename_i identity hid
                          rw [encode_after_countersign] at h
                          simp only [hdd, hasig, Option.isNone_some, Bool.or_self,
                            Bool.false_eq_true, if_false, Except.ok.injEq] at h
                          subst h hp1 hp2
                          refine ⟨din, dn, e, d, account, dd, di, ask, asig, identity, hdin, hdn, he,
                            hd, ?_, hacc, hdd, hask, hasig, hdi, ?_, hid, ?_, rfl, rfl, rfl, ?_⟩
                          · rw [hh, hcmp2]
                          · simpa using hver
                          · simp [heapRead, heapAlloc, hdd, hasig, hask]
                          · simp [hdd, hasig, hask]
                    · simp at h
  · simp at h

/-- From the integrity check on: what `configureSuccessfulPairing` does once
Stage 1 found both mandatory children and the envelope decoded with its
details present. -/
theorem configureSuccessfulPairing_stage2 {env : Env} {stanza : BinaryNode} {creds : AuthCreds}
    {din dn : BinaryNode} {e : ADVSignedDeviceIdentityHMAC} {d : Bytes}
    (hdin : getBinaryNodeChild (getBinaryNodeChild (some stanza) "pair-success") "device-identity"
      = some din)
    (hdn : getBinaryNodeChild (getBinaryNodeChild (some stanza) "pair-success") "device" = some dn)
    (he : env.decodeADVSignedDeviceIdentityHMAC din.content = .ok e)
    (hd : e.details = some d)
    (hbad : e.hmac ≠ some (env.hmacSign
      ((if e.accountType = some .HOSTED then [0x06, 0x05] else []) ++ d)
      (env.base64Decode creds.advSecretKey))) :
    configureSuccessfulPairing env stanza creds =
      .error (.boom "Invalid account signature - HMAC mismatch" .none) := by
  unfold configureSuccessfulPairing
  simp only [hdin, hdn, he, hd, bufferConcat_two]
  cases hh : e.hmac with
  | none => rfl
  | some hm =>
    simp only
    have hne : bufferCompare hm (env.hmacSign
        ((if e.accountType = some .HOSTED then [0x06, 0x05] else []) ++ d)
        (env.base64Decode creds.advSecretKey)) ≠ 0 := by
      intro h0
      rw [bufferCompare_eq_zero_iff] at h0
      exact hbad (by rw [hh, h0])
    rw [if_pos hne]

/-- From the signature check on: what `configureSuccessfulPairing` does once the
integrity check passed and both inner records decoded. -/
theorem configureSuccessfulPairing_stage4 {env : Env} {stanza : BinaryNode} {creds : AuthCreds}
    {din dn : BinaryNode} {e : ADVSignedDeviceIdentityHMAC} {d dd : Bytes}
    {account : ADVSignedDeviceIdentity} {di : ADVDeviceIdentity}
    (hdin : getBinaryNodeChild (getBinaryNodeChild (some stanza) "pair-success") "device-identity"
      = some din)
    (hdn : getBinaryNodeChild (getBinaryNodeChild (some stanza) "pair-success") "device" = some dn)
    (he : env.decodeADVSignedDeviceIdentityHMAC din.content = .ok e)
    (hd : e.details = some d)
    (hh : e.hmac = some (env.hmacSign
      ((if e.accountType = some .HOSTED then [0x06, 0x05] else []) ++ d)
      (env.base64Decode creds.advSecretKey)))
    (hacc : env.decodeADVSignedDeviceIdentity (some d) = .ok account)
    (hdd : account.details = some dd)
    (hdi : env.decodeADVDeviceIdentity (some dd) = .ok di) :
    configureSuccessfulPairing env stanza creds =
      match account.accountSignatureKey, account.accountSignature with
      | some ask, some asig =>
        if env.verify ask
            ((if di.deviceType = some .HOSTED then [0x06, 0x05] else [0x06, 0x00]) ++ dd
              ++ creds.signedIdentityKey.pub) asig = true then
          match env.createSignalIdentity (dn.attrs.get "jid") ask with
          | .error error => .error (.boom "Failed to create signal identity" (.error error))
          | .ok identity => .ok (assembledResult env stanza creds dn account dd di ask identity)
        else
          .error (.boom "Failed to verify account signature - invalid curve signature" .none)
      | _, _ => .error (.boom "Missing account signature or key" .none) := by
  unfold configureSuccessfulPairing
  have h0 : bufferCompare (env.hmacSign
      ((if e.accountType = some .HOSTED then [0x06, 0x05] else []) ++ d)
      (env.base64Decode creds.advSecretKey)) (env.hmacSign
      ((if e.accountType = some .HOSTED then [0x06, 0x05] else []) ++ d)
      (env.base64Decode creds.advSecretKey)) = 0 := (bufferCompare_eq_zero_iff _ _).mpr rfl
  simp only [hdin, hdn, he, hd, hh, bufferConcat_two, bufferConcat_three, bufferConcat_four, h0,
    ne_eq, not_true_eq_false, if_false, hacc, hdd, hdi]
  cases hask : account.accountSignatureKey with
  | none => rfl
  | some ask =>
    cases hasig : account.accountSignature with
    | none => rfl
    | some asig =>
      simp only
      cases hv : env.verify ask
          ((if di.deviceType = some .HOSTED then [0x06, 0x05] else [0x06, 0x00]) ++ dd
            ++ creds.signedIdentityKey.pub) asig with
      | false => simp
      | true =>
        simp only [Bool.not_true, Bool.false_eq_true, if_false, if_true]
        cases hid : env.createSignalIdentity (dn.attrs.get "jid") ask with
        | error err => rfl
        | ok identity =>
          simp only [encode_after_countersign, hdd, hasig, Option.isNone_some, Bool.or_self,
            Bool.false_eq_true, if_false]
          simp [assembledResult, heapRead, heapAlloc, hdd, hasig, hask]

/-- A sequence with one byte changed is a different sequence. -/
theorem singleByteChange_ne {a b : Bytes} (h : singleByteChange a b = true) : a ≠ b := by
  intro hab
  subst hab
  simp [singleByteChange, List.count_replicate] at h

/-- What `encodeSignedDeviceIdentity` returns, in terms of the record the
caller passed. -/
theorem encodeSignedDeviceIdentity_result (env : Env) (h : Heap) (r : Nat) (b : Bool) :
    (encodeSignedDeviceIdentity env h r b).2 =
      if (heapRead h r).details.isNone || (heapRead h r).accountSignature.isNone then
        .error (.boom "Invalid account data for encoding" .none)
      else
        .ok (env.encodeADVSignedDeviceIdentity
          (if b then heapRead h r else { heapRead h r with accountSignatureKey := none })) := by
  have hnew : heapRead (h ++ [heapRead h r]) h.length = heapRead h r := by
    simp [heapRead]
  have hupd : ∀ o : ADVSignedDeviceIdentity,
      heapRead ((h ++ [heapRead h r]).set h.length o) h.length = o := by
    intro o
    simp [heapRead, List.getElem?_set]
  unfold encodeSignedDeviceIdentity
  simp only [heapAlloc, heapUpdate]
  cases b
  · simp only [Bool.not_false, if_true, hupd, hnew, Bool.false_eq_true, if_false]
    split <;> rfl
  · simp only [Bool.not_true, Bool.false_eq_true, if_false, hnew, if_true]
    split <;> rfl

/-- Stage 1: a missing `device-identity` or `device` child is a malformed stanza. -/
theorem configureSuccessfulPairing_stage1 {env : Env} {stanza : BinaryNode} {creds : AuthCreds}
    (hmiss :
      getBinaryNodeChild (getBinaryNodeChild (some stanza) "pair-success") "device-identity" = none ∨
      getBinaryNodeChild (getBinaryNodeChild (some stanza) "pair-success") "device" = none) :
    configureSuccessfulPairing env stanza creds =
      .error (.boom "Missing device-identity or device in pair success node" (.stanza stanza)) := by
  unfold configureSuccessfulPairing
  rcases hmiss with h | h
  · simp only [h]
  · simp only [h]
    cases getBinaryNodeChild (getBinaryNodeChild (some stanza) "pair-success") "device-identity" <;>
      rfl

/-- Stage 2: a failing envelope decode is wrapped with the caught error. -/
theorem configureSuccessfulPairing_envelope_error {env : Env} {stanza : BinaryNode}
    {creds : AuthCreds} {din dn : BinaryNode} {err : JsError}
    (hdin : getBinaryNodeChild (getBinaryNodeChild (some stanza) "pair-success") "device-identity"
      = some din)
    (hdn : getBinaryNodeChild (getBinaryNodeChild (some stanza) "pair-success") "device" = some dn)
    (he : env.decodeADVSignedDeviceIdentityHMAC din.content = .error err) :
    configureSuccessfulPairing env stanza creds =
      .error (.boom "Failed to decode device identity" (.error err)) := by
  unfold configureSuccessfulPairing
  simp only [hdin, hdn, he]

/-- Stage 2: an envelope without `details` makes `Buffer.concat` throw. -/
theorem configureSuccessfulPairing_envelope_no_details {env : Env} {stanza : BinaryNode}
    {creds : AuthCreds} {din dn : BinaryNode} {e : ADVSignedDeviceIdentityHMAC}
    (hdin : getBinaryNodeChild (getBinaryNodeChild (some stanza) "pair-success") "device-identity"
      = some din)
    (hdn : getBinaryNodeChild (getBinaryNodeChild (some stanza) "pair-success") "device" = some dn)
    (he : env.decodeADVSignedDeviceIdentityHMAC din.content = .ok e)
    (hd : e.details = none) :
    configureSuccessfulPairing env stanza creds =
      .error (.typeError "The list argument must hold only Buffer or Uint8Array instances") := by
  unfold configureSuccessfulPairing
  simp only [hdin, hdn, he, hd, bufferConcat_two]

/-- Stage 3: a failing account decode is wrapped with the caught error. -/
theorem configureSuccessfulPairing_account_error {env : Env} {stanza : BinaryNode}
    {creds : AuthCreds} {din dn : BinaryNode} {e : ADVSignedDeviceIdentityHMAC} {d : Bytes}
    {err : JsError}
    (hdin : getBinaryNodeChild (getBinaryNodeChild (some stanza) "pair-success") "device-identity"
      = some din)
    (hdn : getBinaryNodeChild (getBinaryNodeChild (some stanza) "pair-success") "device" = some dn)
    (he : env.decodeADVSignedDeviceIdentityHMAC din.content = .ok e)
    (hd : e.details = some d)
    (hh : e.hmac = some (env.hmacSign
      ((if e.accountType = some .HOSTED then [0x06, 0x05] else []) ++ d)
      (env.base64Decode creds.advSecretKey)))
    (hacc : env.decodeADVSignedDeviceIdentity (some d) = .error err) :
    configureSuccessfulPairing env stanza creds =
      .error (.boom "Failed to decode account details" (.error err)) := by
  unfold configureSuccessfulPairing
  have h0 : bufferCompare (env.hmacSign
      ((if e.accountType = some .HOSTED then [0x06, 0x05] else []) ++ d)
      (env.base64Decode creds.advSecretKey)) (env.hmacSign
      ((if e.accountType = some .HOSTED then [0x06, 0x05] else []) ++ d)
      (env.base64Decode creds.advSecretKey)) = 0 := (bufferCompare_eq_zero_iff _ _).mpr rfl
  simp only [hdin, hdn, he, hd, hh, bufferConcat_two, h0, ne_eq, not_true_eq_false, if_false, hacc]

/-- Stage 3: a failing device details decode is wrapped with the caught error. -/
theorem configureSuccessfulPairing_device_error {env : Env} {stanza : BinaryNode}
    {creds : AuthCreds} {din dn : BinaryNode} {e : ADVSignedDeviceIdentityHMAC} {d : Bytes}
    {account : ADVSignedDeviceIdentity} {err : JsError}
    (hdin : getBinaryNodeChild (getBinaryNodeChild (some stanza) "pair-success") "device-identity"
      = some din)
    (hdn : getBinaryNodeChild (getBinaryNodeChild (some stanza) "pair-success") "device" = some dn)
    (he : env.decodeADVSignedDeviceIdentityHMAC din.content = .ok e)
    (hd : e.details = some d)
    (hh : e.hmac = some (env.hmacSign
      ((if e.accountType = some .HOSTED then [0x06, 0x05] else []) ++ d)
      (env.base64Decode creds.advSecretKey)))
    (hacc : env.decodeADVSignedDeviceIdentity (some d) = .ok account)
    (hdi : env.decodeADVDeviceIdentity account.details = .error err) :
    configureSuccessfulPairing env stanza creds =
      .error (.boom "Failed to decode device details" (.error err)) := by
  unfold configureSuccessfulPairing
  have h0 : bufferCompare (env.hmacSign
      ((if e.accountType = some .HOSTED then [0x06, 0x05] else []) ++ d)
      (env.base64Decode creds.advSecretKey)) (env.hmacSign
      ((if e.accountType = some .HOSTED then [0x06, 0x05] else []) ++ d)
      (env.base64Decode creds.advSecretKey)) = 0 := (bufferCompare_eq_zero_iff _ _).mpr rfl
  simp only [hdin, hdn, he, hd, hh, bufferConcat_two, h0, ne_eq, not_true_eq_false, if_false, hacc,
    hdi]

/-- Stage 4: an account record without `details` makes `Buffer.concat` throw. -/
theorem configureSuccessfulPairing_account_no_details {env : Env} {stanza : BinaryNode}
    {creds : AuthCreds} {din dn : BinaryNode} {e : ADVSignedDeviceIdentityHMAC} {d : Bytes}
    {account : ADVSignedDeviceIdentity} {di : ADVDeviceIdentity}
    (hdin : getBinaryNodeChild (getBinaryNodeChild (some stanza) "pair-success") "device-identity"
      = some din)
    (hdn : getBinaryNodeChild (getBinaryNodeChild (some stanza) "pair-success") "device" = some dn)
    (he : env.decodeADVSignedDeviceIdentityHMAC din.content = .ok e)
    (hd : e.details = some d)
    (hh : e.hmac = some (env.hmacSign
      ((if e.accountType = some .HOSTED then [0x06, 0x05] else []) ++ d)
      (env.base64Decode creds.advSecretKey)))
    (hacc : env.decodeADVSignedDeviceIdentity (some d) = .ok account)
    (hdd : account.details = none)
    (hdi : env.decodeADVDeviceIdentity none = .ok di) :
    configureSuccessfulPairing env stanza creds =
      .error (.typeError "The list argument must hold only Buffer or Uint8Array instances") := by
  unfold configureSuccessfulPairing
  have h0 : bufferCompare (env.hmacSign
      ((if e.accountType = some .HOSTED then [0x06, 0x05] else []) ++ d)
      (env.base64Decode creds.advSecretKey)) (env.hmacSign
      ((if e.accountType = some .HOSTED then [0x06, 0x05] else []) ++ d)
      (env.base64Decode creds.advSecretKey)) = 0 := (bufferCompare_eq_zero_iff _ _).mpr rfl
  simp only [hdin, hdn, he, hd, hh, bufferConcat_two, bufferConcat_three, h0, ne_eq,
    not_true_eq_false, if_false, hacc, hdd, hdi]

/-- Once both mandatory children are found, whether and how the call fails is
decided by those two nodes, the credentials and the collaborators alone. -/
theorem configureSuccessfulPairing_failure_indep {env : Env} {s1 s2 : BinaryNode}
    {creds : AuthCreds} {din dn : BinaryNode}
    (h1din : getBinaryNodeChild (getBinaryNodeChild (some s1) "pair-success") "device-identity"
      = some din)
    (h1dn : getBinaryNodeChild (getBinaryNodeChild (some s1) "pair-success") "device" = some dn)
    (h2din : getBinaryNodeChild (getBinaryNodeChild (some s2) "pair-success") "device-identity"
      = some din)
    (h2dn : getBinaryNodeChild (getBinaryNodeChild (some s2) "pair-success") "device" = some dn)
    (t : Thrown) (h : configureSuccessfulPairing env s1 creds = .error t) :
    configureSuccessfulPairing env s2 creds = .error t := by
  cases he : env.decodeADVSignedDeviceIdentityHMAC din.content with
  | error err =>
    rw [configureSuccessfulPairing_envelope_error h1din h1dn he] at h
    rw [configureSuccessfulPairing_envelope_error h2din h2dn he]
    exact h
  | ok e =>
    cases hd : e.details with
    | none =>
      rw [configureSuccessfulPairing_envelope_no_details h1din h1dn he hd] at h
      rw [configureSuccessfulPairing_envelope_no_details h2din h2dn he hd]
      exact h
    | some d =>
      by_cases hh : e.hmac = some (env.hmacSign
          ((if e.accountType = some .HOSTED then [0x06, 0x05] else []) ++ d)
          (env.base64Decode creds.advSecretKey))
      · cases hacc : env.decodeADVSignedDeviceIdentity (some d) with
        | error err =>
          rw [configureSuccessfulPairing_account_error h1din h1dn he hd hh hacc] at h
          rw [configureSuccessfulPairing_account_error h2din h2dn he hd hh hacc]
          exact h
        | ok account =>
          cases hdi : env.decodeADVDeviceIdentity account.details with
          | error err =>
            rw [configureSuccessfulPairing_device_error h1din h1dn he hd hh hacc hdi] at h
            rw [configureSuccessfulPairing_device_error h2din h2dn he hd hh hacc hdi]
            exact h
          | ok di =>
            cases hdd : account.details with
            | none =>
              rw [hdd] at hdi
              rw [configureSuccessfulPairing_account_no_details h1din h1dn he hd hh hacc hdd hdi]
                at h
              rw [configureSuccessfulPairing_account_no_details h2din h2dn he hd hh hacc hdd hdi]
              exact h
            | some dd =>
              rw [hdd] at hdi
              rw [configureSuccessfulPairing_stage4 h1din h1dn he hd hh hacc hdd hdi] at h
              rw [configureSuccessfulPairing_stage4 h2din h2dn he hd hh hacc hdd hdi]
              cases hask : account.accountSignatureKey with
              | none => simpa only [hask] using h
              | some ask =>
                cases hasig : account.accountSignature with
                | none => simpa only [hask, hasig] using h
                | some asig =>
                  simp only [hask, hasig] at h ⊢
                  by_cases hv : env.verify ask
                      ((if di.deviceType = some .HOSTED then [0x06, 0x05] else [0x06, 0x00]) ++ dd
                        ++ creds.signedIdentityKey.pub) asig = true
                  · rw [if_pos hv] at h ⊢
                    cases hid : env.createSignalIdentity (dn.attrs.get "jid") ask with
                    | error err => simpa only [hid] using h
                    | ok identity => simp only [hid] at h; cases h
                  · rw [if_neg hv] at h ⊢
                    exact h
      · rw [configureSuccessfulPairing_stage2 h1din h1dn he hd hh] at h
        rw [configureSuccessfulPairing_stage2 h2din h2dn he hd hh]
        exact h

/-- `device || 0` is the device index, or zero when there is none. -/
theorem orElseNat_zero (x : Option Nat) : orElseNat x 0 = x.getD 0 := by
  cases x with
  | none => rfl
  | some n =>
    by_cases h : n = 0
    · simp [orElseNat, h]
    · simp [orElseNat, h]

/-- The big-endian byte sequence has the requested width. -/
theorem bigEndianBytes_length (value width : Nat) : (bigEndianBytes value width).length = width := by
  simp [bigEndianBytes]

/-- When the modelled `encodeBigEndian` returns, its result has the requested
width. -/
theorem encodeBigEndian_length {defaultWidth value : Nat} {width : Option Nat} {b : Bytes}
    (h : encodeBigEndian defaultWidth value width = .ok b) :
    b.length = width.getD defaultWidth := by
  unfold encodeBigEndian at h
  simp only at h
  split at h
  · cases h
    exact bigEndianBytes_length _ _
  · cases h

/-- Everything `configureSuccessfulPairing` can throw: a `Boom` with one of the
eight site messages, or the `TypeError` of `Buffer.concat`. -/
theorem configureSuccessfulPairing_thrown_cases {env : Env} {stanza : BinaryNode}
    {creds : AuthCreds} {t : Thrown} (h : configureSuccessfulPairing env stanza creds = .error t) :
    (∃ m d, t = .boom m d ∧
      m ∈ ["Missing device-identity or device in pair success node",
           "Failed to decode device identity",
           "Invalid account signature - HMAC mismatch",
           "Failed to decode account details",
           "Failed to decode device details",
           "Missing account signature or key",
           "Failed to verify account signature - invalid curve signature",
           "Failed to create signal identity"]) ∨
    (∃ m, t = .typeError m) := by
  cases hdin : getBinaryNodeChild (getBinaryNodeChild (some stanza) "pair-success")
      "device-identity" with
  | none =>
    rw [configureSuccessfulPairing_stage1 (Or.inl hdin)] at h
    cases h
    exact Or.inl ⟨_, _, rfl, by simp⟩
  | some din =>
    cases hdn : getBinaryNodeChild (getBinaryNodeChild (some stanza) "pair-success") "device" with
    | none =>
      rw [configureSuccessfulPairing_stage1 (Or.inr hdn)] at h
      cases h
      exact Or.inl ⟨_, _, rfl, by simp⟩
    | some dn =>
      cases he : env.decodeADVSignedDeviceIdentityHMAC din.content with
      | error err =>
        rw [configureSuccessfulPairing_envelope_error hdin hdn he] at h
        cases h
        exact Or.inl ⟨_, _, rfl, by simp⟩
      | ok e =>
        cases hd : e.details with
        | none =>
          rw [configureSuccessfulPairing_envelope_no_details hdin hdn he hd] at h
          cases h
          exact Or.inr ⟨_, rfl⟩
        | some d =>
          by_cases hh : e.hmac = some (env.hmacSign
              ((if e.accountType = some .HOSTED then [0x06, 0x05] else []) ++ d)
              (env.base64Decode creds.advSecretKey))
          · cases hacc : env.decodeADVSignedDeviceIdentity (some d) with
            | error err =>
              rw [configureSuccessfulPairing_account_error hdin hdn he hd hh hacc] at h
              cases h
              exact Or.inl ⟨_, _, rfl, by simp⟩
            | ok account =>
              cases hdi : env.decodeADVDeviceIdentity account.details with
              | error err =>
                rw [configureSuccessfulPairing_device_error hdin hdn he hd hh hacc hdi] at h
                cases h
                exact Or.inl ⟨_, _, rfl, by simp⟩
              | ok di =>
                cases hdd : account.details with
                | none =>
                  rw [hdd] at hdi
                  rw [configureSuccessfulPairing_account_no_details hdin hdn he hd hh hacc hdd hdi]
                    at h
                  cases h
                  exact Or.inr ⟨_, rfl⟩
                | some dd =>
                  rw [hdd] at hdi
                  rw [configureSuccessfulPairing_stage4 hdin hdn he hd hh hacc hdd hdi] at h
                  cases hask : account.accountSignatureKey with
                  | none =>
                    simp only [hask] at h
                    cases h
                    exact Or.inl ⟨_, _, rfl, by simp⟩
                  | some ask =>
                    cases hasig : account.accountSignature with
                    | none =>
                      simp only [hask, hasig] at h
                      cases h
                      exact Or.inl ⟨_, _, rfl, by simp⟩
                    | some asig =>
                      simp only [hask, hasig] at h
                      by_cases hv : env.verify ask
                          ((if di.deviceType = some .HOSTED then [0x06, 0x05] else [0x06, 0x00])
                            ++ dd ++ creds.signedIdentityKey.pub) asig = true
                      · rw [if_pos hv] at h
                        cases hid : env.createSignalIdentity (dn.attrs.get "jid") ask with
                        | error err =>
                          simp only [hid] at h
                          cases h
                          exact Or.inl ⟨_, _, rfl, by simp⟩
                        | ok identity => simp only [hid] at h; cases h
                      · rw [if_neg hv] at h
                        cases h
                        exact Or.inl ⟨_, _, rfl, by simp⟩
          · rw [configureSuccessfulPairing_stage2 hdin hdn he hd hh] at h
            cases h
            exact Or.inl ⟨_, _, rfl, by simp⟩

/-- Once the keyed hash matches, the call does not fail with the HMAC mismatch
error: what happens is decided by the later stages. -/
theorem configureSuccessfulPairing_pass_not_mismatch {env : Env} {stanza : BinaryNode}
    {creds : AuthCreds} {din dn : BinaryNode} {e : ADVSignedDeviceIdentityHMAC} {d : Bytes}
    (hdin : getBinaryNodeChild (getBinaryNodeChild (some stanza) "pair-success") "device-identity"
      = some din)
    (hdn : getBinaryNodeChild (getBinaryNodeChild (some stanza) "pair-success") "device" = some dn)
    (he : env.decodeADVSignedDeviceIdentityHMAC din.content = .ok e)
    (hd : e.details = some d)
    (hh : e.hmac = some (env.hmacSign
      ((if e.accountType = some .HOSTED then [0x06, 0x05] else []) ++ d)
      (env.base64Decode creds.advSecretKey)))
    (data : BoomData) :
    configureSuccessfulPairing env stanza creds ≠
      .error (.boom "Invalid account signature - HMAC mismatch" data) := by
  intro h
  cases hacc : env.decodeADVSignedDeviceIdentity (some d) with
  | error err =>
    rw [configureSuccessfulPairing_account_error hdin hdn he hd hh hacc] at h
    simp at h
  | ok account =>
    cases hdi : env.decodeADVDeviceIdentity account.details with
    | error err =>
      rw [configureSuccessfulPairing_device_error hdin hdn he hd hh hacc hdi] at h
      simp at h
    | ok di =>
      cases hdd : account.details with
      | none =>
        rw [hdd] at hdi
        rw [configureSuccessfulPairing_account_no_details hdin hdn he hd hh hacc hdd hdi] at h
        cases h
      | some dd =>
        rw [hdd] at hdi
        rw [configureSuccessfulPairing_stage4 hdin hdn he hd hh hacc hdd hdi] at h
        cases hask : account.accountSignatureKey with
        | none => simp [hask] at h
        | some ask =>
          cases hasig : account.accountSignature with
          | none => simp [hask, hasig] at h
          | some asig =>
            simp only [hask, hasig] at h
            by_cases hv : env.verify ask
                ((if di.deviceType = some .HOSTED then [0x06, 0x05] else [0x06, 0x00])
                  ++ dd ++ creds.signedIdentityKey.pub) asig = true
            · rw [if_pos hv] at h
              cases hid : env.createSignalIdentity (dn.attrs.get "jid") ask with
              | error err => simp [hid] at h
              | ok identity => simp [hid] at h
            · rw [if_neg hv] at h
              simp at h

/-- The substring test finds an occurrence that does not start the text, and
needs the pattern's characters to be adjacent. -/
theorem includes_inner_occurrence :
    includes "IMAC" "MAC" = true ∧ includes "XDARWINY" "DARWIN" = true ∧
    includes "MA C" "MAC" = false ∧ includes "CHROME" "MAC" = false := by
  decide

theorem demo_run : configureSuccessfulPairing demoEnv demoStanza demoCreds = .ok demoResult := by
  rfl

/-! ## Stage 2: the integrity check -/

/-- C1. The integrity stage does not always fail with the HMAC mismatch error
when `hmac` is absent. The empty `device-identity` content decodes to an
envelope with neither `details` nor `hmac`; `Buffer.concat([hmacPrefix,
details])` (lines 183 to 186) runs before the `!hmac` test of line 188 and
throws a `TypeError`, which is what the call fails with. -/
theorem hmac_stage_absent_details_type_error :
    bareEnvelopeEnv.decodeADVSignedDeviceIdentityHMAC (.bytes []) =
        .ok { details := none, hmac := none, accountType := none } ∧
    configureSuccessfulPairing bareEnvelopeEnv (demoStanzaWith []) demoCreds =
        .error (.typeError "The list argument must hold only Buffer or Uint8Array instances") ∧
    configureSuccessfulPairing bareEnvelopeEnv (demoStanzaWith []) demoCreds ≠
        .error (.boom "Invalid account signature - HMAC mismatch" .none) :=
  ⟨rfl, rfl, fun h => by cases h⟩

/-- The integrity stage when the envelope has its `details`. For a stanza that
passed Stage 1 and whose `device-identity` content decodes to the envelope `e`:
a result is returned only if `e.details` is present and `e.hmac` is present and
equal to
`hmacSign(prefix ++ details, base64decode(advSecretKey))`, with the prefix
`[0x06,0x05]` for a HOSTED `accountType` and empty otherwise; and whenever
`e.details` is present and `e.hmac` is absent or differs from that value, the
call fails with the HMAC mismatch error, whatever the decoders, the verifier and
the other collaborators would do afterwards. -/
theorem hmac_stage_fail_closed (env : Env) (stanza : BinaryNode) (creds : AuthCreds)
    (din dn : BinaryNode) (e : ADVSignedDeviceIdentityHMAC)
    (hdin : getBinaryNodeChild (getBinaryNodeChild (some stanza) "pair-success") "device-identity"
      = some din)
    (hdn : getBinaryNodeChild (getBinaryNodeChild (some stanza) "pair-success") "device" = some dn)
    (he : env.decodeADVSignedDeviceIdentityHMAC din.content = .ok e) :
    (∀ r, configureSuccessfulPairing env stanza creds = .ok r →
      ∃ d, e.details = some d ∧
        e.hmac = some (env.hmacSign
          ((if e.accountType = some .HOSTED then [0x06, 0x05] else []) ++ d)
          (env.base64Decode creds.advSecretKey))) ∧
    (∀ d, e.details = some d →
      e.hmac ≠ some (env.hmacSign
          ((if e.accountType = some .HOSTED then [0x06, 0x05] else []) ++ d)
          (env.base64Decode creds.advSecretKey)) →
      configureSuccessfulPairing env stanza creds =
        .error (.boom "Invalid account signature - HMAC mismatch" .none)) := by
  constructor
  · intro r hr
    obtain ⟨din2, _, e2, d, _, _, _, _, _, _, hdin2, _, he2, hd, hh, _⟩ :=
      configureSuccessfulPairing_ok_inv hr
    rw [hdin] at hdin2
    cases hdin2
    rw [he] at he2
    cases he2
    exact ⟨d, hd, hh⟩
  · intro d hd hbad
    exact configureSuccessfulPairing_stage2 hdin hdn he hd hbad

/-- The integrity stage on a concrete input: the keyed hash `[10, 8]` is not
the expected `[10, 9]`, so the call fails with the HMAC mismatch error. -/
theorem hmac_stage_fail_closed_witness :
    configureSuccessfulPairing demoEnv (demoStanzaWith [0, 1, 10, 10, 8]) demoCreds =
      .error (.boom "Invalid account signature - HMAC mismatch" .none) :=
  (hmac_stage_fail_closed demoEnv (demoStanzaWith [0, 1, 10, 10, 8]) demoCreds
    (.mk "device-identity" [] (.bytes [0, 1, 10, 10, 8]))
    (.mk "device" [("jid", some "1@s.whatsapp.net")] .absent)
    { details := some [10], hmac := some [10, 8], accountType := none }
    rfl rfl rfl).2 [10] rfl (by decide)

/-! ## Stage 4: the account signature -/

/-- C2. Stage 4 is the trust anchor. For an input that passed the integrity
check and whose account record and device details both decoded: (1) provided
peer identity creation succeeds, a result is returned if and only if
`accountSignatureKey` and `accountSignature` are both present and
`Curve.verify(accountSignatureKey, prefix ++ deviceDetails ++ identityPublic,
accountSignature)` holds, the prefix being `[0x06,0x05]` for a HOSTED
`deviceType` and `[0x06,0x00]` otherwise; (2) if either is absent the call
fails with the missing signature material error; (3) if verification returns
false it fails with the invalid signature error. -/
theorem account_signature_gate (env : Env) (stanza : BinaryNode) (creds : AuthCreds)
    (din dn : BinaryNode) (e : ADVSignedDeviceIdentityHMAC) (d dd : Bytes)
    (account : ADVSignedDeviceIdentity) (di : ADVDeviceIdentity)
    (hdin : getBinaryNodeChild (getBinaryNodeChild (some stanza) "pair-success") "device-identity"
      = some din)
    (hdn : getBinaryNodeChild (getBinaryNodeChild (some stanza) "pair-success") "device" = some dn)
    (he : env.decodeADVSignedDeviceIdentityHMAC din.content = .ok e)
    (hd : e.details = some d)
    (hh : e.hmac = some (env.hmacSign
      ((if e.accountType = some .HOSTED then [0x06, 0x05] else []) ++ d)
      (env.base64Decode creds.advSecretKey)))
    (hacc : env.decodeADVSignedDeviceIdentity (some d) = .ok account)
    (hdd : account.details = some dd)
    (hdi : env.decodeADVDeviceIdentity (some dd) = .ok di) :
    ((∀ ask, account.accountSignatureKey = some ask →
        ∃ identity, env.createSignalIdentity (dn.attrs.get "jid") ask = .ok identity) →
      ((∃ r, configureSuccessfulPairing env stanza creds = .ok r) ↔
        ∃ ask asig, account.accountSignatureKey = some ask ∧
          account.accountSignature = some asig ∧
          env.verify ask
            ((if di.deviceType = some .HOSTED then [0x06, 0x05] else [0x06, 0x00]) ++ dd
              ++ creds.signedIdentityKey.pub) asig = true)) ∧
    ((account.accountSignatureKey = none ∨ account.accountSignature = none) →
      configureSuccessfulPairing env stanza creds =
        .error (.boom "Missing account signature or key" .none)) ∧
    (∀ ask asig, account.accountSignatureKey = some ask → account.accountSignature = some asig →
      env.verify ask
        ((if di.deviceType = some .HOSTED then [0x06, 0x05] else [0x06, 0x00]) ++ dd
          ++ creds.signedIdentityKey.pub) asig = false →
      configureSuccessfulPairing env stanza creds =
        .error (.boom "Failed to verify account signature - invalid curve signature" .none)) := by
  have key := configureSuccessfulPairing_stage4 hdin hdn he hd hh hacc hdd hdi
  refine ⟨?_, ?_, ?_⟩
  · intro hid
    constructor
    · rintro ⟨r, hr⟩
      rw [key] at hr
      cases hask : account.accountSignatureKey with
      | none => simp [hask] at hr
      | some ask =>
        cases hasig : account.accountSignature with
        | none => simp [hask, hasig] at hr
        | some asig =>
          simp only [hask, hasig] at hr
          by_cases hv : env.verify ask
              ((if di.deviceType = some .HOSTED then [0x06, 0x05] else [0x06, 0x00]) ++ dd
                ++ creds.signedIdentityKey.pub) asig = true
          · exact ⟨ask, asig, rfl, rfl, hv⟩
          · rw [if_neg hv] at hr
            cases hr
    · rintro ⟨ask, asig, hask, hasig, hv⟩
      obtain ⟨identity, hidn⟩ := hid ask hask
      refine ⟨assembledResult env stanza creds dn account dd di ask identity, ?_⟩
      rw [key]
      simp only [hask, hasig, hv, if_true, hidn]
  · intro habs
    rw [key]
    rcases habs with h | h
    · simp only [h]
    · cases hask : account.accountSignatureKey <;> simp only [h]
  · intro ask asig hask hasig hv
    rw [key]
    simp only [hask, hasig, hv, Bool.false_eq_true, if_false]

/-- C2 on a concrete input: with both signature fields present and a valid
account signature the call returns a result. -/
theorem account_signature_gate_witness :
    ∃ r, configureSuccessfulPairing demoEnv demoStanza demoCreds = .ok r :=
  ((account_signature_gate demoEnv demoStanza demoCreds
    (.mk "device-identity" [] (.bytes [0, 1, 10, 10, 9]))
    (.mk "device" [("jid", some "1@s.whatsapp.net")] .absent)
    { details := some [10], hmac := some [10, 9], accountType := none } [10] [20]
    { details := some [20], accountSignatureKey := some [30],
      accountSignature := some [6, 0, 20, 7, 30] }
    { deviceType := none, keyIndex := some 3 }
    rfl rfl rfl rfl rfl rfl rfl rfl).1
      (fun ask _ => ⟨{ name := some "1@s.whatsapp.net", identifierKey := ask }, rfl⟩)).mpr
    ⟨[30], [6, 0, 20, 7, 30], rfl, rfl, by decide⟩

/-! ## Stage 5: the device countersignature -/

/-- C3. On every successful run, `creds.account.deviceSignature` is
`Curve.sign(identityPrivate, [0x06,0x01] ++ deviceDetails ++ identityPublic ++
accountSignatureKey)`, where `deviceDetails` and `accountSignatureKey` are the
fields of the account record decoded from the inbound envelope; hence, if the
signature primitive is correct for the local key pair, the returned signature
verifies under the local public key over that same message. -/
theorem device_countersignature (env : Env) (stanza : BinaryNode) (creds : AuthCreds)
    (r : PairingResult) (h : configureSuccessfulPairing env stanza creds = .ok r) :
    ∃ din e d account dd ask,
      getBinaryNodeChild (getBinaryNodeChild (some stanza) "pair-success") "device-identity"
        = some din ∧
      env.decodeADVSignedDeviceIdentityHMAC din.content = .ok e ∧
      e.details = some d ∧
      env.decodeADVSignedDeviceIdentity (some d) = .ok account ∧
      account.details = some dd ∧
      account.accountSignatureKey = some ask ∧
      r.creds.account.deviceSignature =
        some (env.sign creds.signedIdentityKey.priv
          ([0x06, 0x01] ++ dd ++ creds.signedIdentityKey.pub ++ ask)) ∧
      ((∀ m, env.verify creds.signedIdentityKey.pub m
          (env.sign creds.signedIdentityKey.priv m) = true) →
        ∃ sig, r.creds.account.deviceSignature = some sig ∧
          env.verify creds.signedIdentityKey.pub
            ([0x06, 0x01] ++ dd ++ creds.signedIdentityKey.pub ++ ask) sig = true) := by
  obtain ⟨din, _, e, d, account, dd, _, ask, _, _, hdin, _, he, hd, _, hacc, hdd, hask, _, _, _, _,
    hr, _⟩ := configureSuccessfulPairing_ok_inv h
  refine ⟨din, e, d, account, dd, ask, hdin, he, hd, hacc, hdd, hask, ?_, ?_⟩
  · rw [hr]
  · intro hcorrect
    exact ⟨_, by rw [hr], hcorrect _⟩

/-- C3 on a concrete input: the countersignature returned on `demoStanza`. -/
theorem device_countersignature_witness :
    ∃ din e d account dd ask,
      getBinaryNodeChild (getBinaryNodeChild (some demoStanza) "pair-success") "device-identity"
        = some din ∧
      demoEnv.decodeADVSignedDeviceIdentityHMAC din.content = .ok e ∧
      e.details = some d ∧
      demoEnv.decodeADVSignedDeviceIdentity (some d) = .ok account ∧
      account.details = some dd ∧
      account.accountSignatureKey = some ask ∧
      demoResult.creds.account.deviceSignature =
        some (demoEnv.sign demoCreds.signedIdentityKey.priv
          ([0x06, 0x01] ++ dd ++ demoCreds.signedIdentityKey.pub ++ ask)) ∧
      ((∀ m, demoEnv.verify demoCreds.signedIdentityKey.pub m
          (demoEnv.sign demoCreds.signedIdentityKey.priv m) = true) →
        ∃ sig, demoResult.creds.account.deviceSignature = some sig ∧
          demoEnv.verify demoCreds.signedIdentityKey.pub
            ([0x06, 0x01] ++ dd ++ demoCreds.signedIdentityKey.pub ++ ask) sig = true) :=
  device_countersignature demoEnv demoStanza demoCreds demoResult rfl

/-! ## Tampering with the envelope -/

/-- C4 fails as stated. With a keyed hash that ignores the message, the
envelope `details = [10]`, `hmac = [9]` passes the integrity check under the key
`[9]`; the stanza carrying it with the details byte changed to `11` passes too:
the call returns a credential update instead of failing with the HMAC mismatch
error. -/
theorem tamper_detection_collision_counterexample :
    collidingEnv.decodeADVSignedDeviceIdentityHMAC (.bytes [0, 1, 10, 9]) =
        .ok { details := some [10], hmac := some [9], accountType := none } ∧
    collidingEnv.hmacSign ([] ++ [10]) (collidingEnv.base64Decode demoCreds.advSecretKey) = [9] ∧
    configureSuccessfulPairing collidingEnv (demoStanzaWith [0, 1, 10, 9]) demoCreds =
        .ok demoResult ∧
    singleByteChange [10] [11] = true ∧
    collidingEnv.decodeADVSignedDeviceIdentityHMAC (.bytes [0, 1, 11, 9]) =
        .ok { details := some [11], hmac := some [9], accountType := none } ∧
    configureSuccessfulPairing collidingEnv (demoStanzaWith [0, 1, 11, 9]) demoCreds =
        .ok demoResult :=
  ⟨rfl, rfl, rfl, rfl, rfl, rfl⟩

/-- C4, amended. Tamper detection. Let `e` be an envelope that passes the
integrity check under the local secret, and let the inbound stanza carry `e`
with a single byte changed. If the changed byte is in `hmac`, the call fails
with the HMAC mismatch error (an error result carries no credential update).
If the changed byte is in `details`, the call fails with the HMAC mismatch
error exactly when the keyed hash of the changed details differs from that of
the original details. -/
theorem tamper_detection (env : Env) (stanza : BinaryNode) (creds : AuthCreds)
    (din dn : BinaryNode) (e e2 : ADVSignedDeviceIdentityHMAC) (d hm : Bytes)
    (hdin : getBinaryNodeChild (getBinaryNodeChild (some stanza) "pair-success") "device-identity"
      = some din)
    (hdn : getBinaryNodeChild (getBinaryNodeChild (some stanza) "pair-success") "device" = some dn)
    (he : env.decodeADVSignedDeviceIdentityHMAC din.content = .ok e2)
    (hd : e.details = some d)
    (hh : e.hmac = some hm)
    (hpass : hm = env.hmacSign
      ((if e.accountType = some .HOSTED then [0x06, 0x05] else []) ++ d)
      (env.base64Decode creds.advSecretKey)) :
    (∀ hm2, e2 = { e with hmac := some hm2 } → singleByteChange hm hm2 = true →
      configureSuccessfulPairing env stanza creds =
        .error (.boom "Invalid account signature - HMAC mismatch" .none)) ∧
    (∀ d2, e2 = { e with details := some d2 } → singleByteChange d d2 = true →
      (configureSuccessfulPairing env stanza creds =
          .error (.boom "Invalid account signature - HMAC mismatch" .none) ↔
        env.hmacSign ((if e.accountType = some .HOSTED then [0x06, 0x05] else []) ++ d2)
            (env.base64Decode creds.advSecretKey) ≠
          env.hmacSign ((if e.accountType = some .HOSTED then [0x06, 0x05] else []) ++ d)
            (env.base64Decode creds.advSecretKey))) := by
  constructor
  · intro hm2 he2 hchg
    subst he2
    refine configureSuccessfulPairing_stage2 hdin hdn he hd ?_
    intro hcontra
    simp only [Option.some.injEq] at hcontra
    exact singleByteChange_ne hchg (by rw [hpass, hcontra])
  · intro d2 he2 _
    subst he2
    constructor
    · intro hfail hcol
      refine configureSuccessfulPairing_pass_not_mismatch (d := d2) hdin hdn he rfl ?_ .none hfail
      simp only [hh, hpass, hcol]
    · intro hdiff
      refine configureSuccessfulPairing_stage2 (d := d2) hdin hdn he rfl ?_
      intro hcontra
      simp only [hh, Option.some.injEq] at hcontra
      rw [hpass] at hcontra
      exact hdiff hcontra.symm

/-- C4, amended, on a concrete input: the details byte `10` of the demo envelope
changed to `11`; under the keyed hash of `demoEnv` (message followed by key) the
two hashes differ, and the call fails with the HMAC mismatch error. -/
theorem tamper_detection_witness :
    configureSuccessfulPairing demoEnv (demoStanzaWith [0, 1, 11, 10, 9]) demoCreds =
      .error (.boom "Invalid account signature - HMAC mismatch" .none) :=
  ((tamper_detection demoEnv (demoStanzaWith [0, 1, 11, 10, 9]) demoCreds
    (.mk "device-identity" [] (.bytes [0, 1, 11, 10, 9]))
    (.mk "device" [("jid", some "1@s.whatsapp.net")] .absent)
    { details := some [10], hmac := some [10, 9], accountType := none }
    { details := some [11], hmac := some [10, 9], accountType := none }
    [10] [10, 9] rfl rfl rfl rfl rfl rfl).2 [11] rfl (by decide)).mpr (by decide)

/-! ## The identity codec -/

/-- C5. `encodeSignedDeviceIdentity(account, false)`, when it returns, returns
the schema encoding of a copy of the record whose `accountSignatureKey` is
cleared and whose `details`, `accountSignature` and `deviceSignature` are those
of the record passed in; and for either value of `includeSignatureKey` the
record passed in is the same after the call as before. -/
theorem encode_strips_key_on_a_copy (env : Env) (h : Heap) (account : Nat) :
    (∀ out, (encodeSignedDeviceIdentity env h account false).2 = .ok out →
      ∃ copy : ADVSignedDeviceIdentity,
        copy.accountSignatureKey = none ∧
        copy.details = (heapRead h account).details ∧
        copy.accountSignature = (heapRead h account).accountSignature ∧
        copy.deviceSignature = (heapRead h account).deviceSignature ∧
        out = env.encodeADVSignedDeviceIdentity copy) ∧
    (((heapRead h account).details ≠ none ∧ (heapRead h account).accountSignature ≠ none) →
      ∃ out, (encodeSignedDeviceIdentity env h account false).2 = .ok out) ∧
    (∀ includeSignatureKey,
      heapRead (encodeSignedDeviceIdentity env h account includeSignatureKey).1 account =
        heapRead h account) := by
  refine ⟨?_, ?_, ?_⟩
  rotate_left
  · rintro ⟨h1, h2⟩
    rw [encodeSignedDeviceIdentity_result]
    cases hd : (heapRead h account).details <;>
      cases hs : (heapRead h account).accountSignature <;> simp_all
  · intro b
    exact encodeSignedDeviceIdentity_read env h account b
  · intro out hout
    rw [encodeSignedDeviceIdentity_result] at hout
    split at hout
    · cases hout
    · simp only [Bool.false_eq_true, if_false, Except.ok.injEq] at hout
      exact ⟨{ heapRead h account with accountSignatureKey := none }, rfl, rfl, rfl, rfl, hout.symm⟩

/-- C5 on a concrete input: encoding the demo record without the key gives
the bytes of its other three fields, and the record still has its key. -/
theorem encode_strips_key_on_a_copy_witness :
    (∃ copy : ADVSignedDeviceIdentity,
        copy.accountSignatureKey = none ∧
        copy.details = (heapRead [demoAccount] 0).details ∧
        copy.accountSignature = (heapRead [demoAccount] 0).accountSignature ∧
        copy.deviceSignature = (heapRead [demoAccount] 0).deviceSignature ∧
        [20, 6, 0, 20, 7, 30, 6, 1, 20, 7, 30, 7] =
          demoEnv.encodeADVSignedDeviceIdentity copy) ∧
    (heapRead (encodeSignedDeviceIdentity demoEnv [demoAccount] 0 false).1 0).accountSignatureKey
      = some [30] :=
  ⟨(encode_strips_key_on_a_copy demoEnv [demoAccount] 0).1
      [20, 6, 0, 20, 7, 30, 6, 1, 20, 7, 30, 7] rfl,
    by rw [(encode_strips_key_on_a_copy demoEnv [demoAccount] 0).2.2 false]; rfl⟩

/-- C6. `encodeSignedDeviceIdentity` fails with the invalid record error exactly
when the record's `details` or its `accountSignature` is absent, for both values
of `includeSignatureKey`; when both are present the result is the schema
encoding of the record (with `accountSignatureKey` cleared when
`includeSignatureKey` is false), whatever `accountSignatureKey` and
`deviceSignature` hold. -/
theorem encode_fails_iff_mandatory_missing (env : Env) (h : Heap) (account : Nat)
    (includeSignatureKey : Bool) :
    ((encodeSignedDeviceIdentity env h account includeSignatureKey).2 =
        .error (.boom "Invalid account data for encoding" .none) ↔
      ((heapRead h account).details = none ∨ (heapRead h account).accountSignature = none)) ∧
    ((∃ t, (encodeSignedDeviceIdentity env h account includeSignatureKey).2 = .error t) ↔
      ((heapRead h account).details = none ∨ (heapRead h account).accountSignature = none)) ∧
    (((heapRead h account).details ≠ none ∧ (heapRead h account).accountSignature ≠ none) →
      (encodeSignedDeviceIdentity env h account includeSignatureKey).2 =
        .ok (env.encodeADVSignedDeviceIdentity
          (if includeSignatureKey then heapRead h account
           else { heapRead h account with accountSignatureKey := none }))) := by
  rw [encodeSignedDeviceIdentity_result]
  cases hd : (heapRead h account).details <;> cases hs : (heapRead h account).accountSignature <;>
    simp

/-- C6 on a concrete input: a record with `details` and `accountSignature` but
neither `accountSignatureKey` nor `deviceSignature` is encoded. -/
theorem encode_fails_iff_mandatory_missing_witness :
    (encodeSignedDeviceIdentity demoEnv
      [{ details := some [1], accountSignature := some [2] }] 0 true).2 = .ok [1, 2] :=
  (encode_fails_iff_mandatory_missing demoEnv
    [{ details := some [1], accountSignature := some [2] }] 0 true).2.2
    ⟨by decide, by decide⟩

/-! ## Stage 7: the credential update and the reply -/

/-- C7. Append-only credential update. On every successful run,
`creds.signalIdentities` is the caller's list (empty when absent) followed by
the one record `createSignalIdentity(jid, accountSignatureKey)`: its length is
the old length plus one, every old entry keeps its position, and the new entry
is last. -/
theorem signal_identities_append_only (env : Env) (stanza : BinaryNode) (creds : AuthCreds)
    (r : PairingResult) (h : configureSuccessfulPairing env stanza creds = .ok r) :
    ∃ din dn e d account ask identity,
      getBinaryNodeChild (getBinaryNodeChild (some stanza) "pair-success") "device-identity"
        = some din ∧
      getBinaryNodeChild (getBinaryNodeChild (some stanza) "pair-success") "device" = some dn ∧
      env.decodeADVSignedDeviceIdentityHMAC din.content = .ok e ∧
      e.details = some d ∧
      env.decodeADVSignedDeviceIdentity (some d) = .ok account ∧
      account.accountSignatureKey = some ask ∧
      env.createSignalIdentity (dn.attrs.get "jid") ask = .ok identity ∧
      r.creds.signalIdentities = creds.signalIdentities.getD [] ++ [identity] ∧
      r.creds.signalIdentities.length = (creds.signalIdentities.getD []).length + 1 ∧
      (∀ i, i < (creds.signalIdentities.getD []).length →
        r.creds.signalIdentities[i]? = (creds.signalIdentities.getD [])[i]?) ∧
      r.creds.signalIdentities.getLast? = some identity := by
  obtain ⟨din, dn, e, d, account, _, _, ask, _, identity, hdin, hdn, he, hd, _, hacc, _, hask, _, _,
    _, hid, _, _, hsi, _⟩ := configureSuccessfulPairing_ok_inv h
  refine ⟨din, dn, e, d, account, ask, identity, hdin, hdn, he, hd, hacc, hask, hid, hsi, ?_, ?_, ?_⟩
  · rw [hsi]; simp
  · intro i hi
    rw [hsi, List.getElem?_append_left hi]
  · rw [hsi]; simp

/-- C7 on a concrete input: the caller had no list; the result holds exactly
the new record. -/
theorem signal_identities_append_only_witness :
    ∃ din dn e d account ask identity,
      getBinaryNodeChild (getBinaryNodeChild (some demoStanza) "pair-success") "device-identity"
        = some din ∧
      getBinaryNodeChild (getBinaryNodeChild (some demoStanza) "pair-success") "device"
        = some dn ∧
      demoEnv.decodeADVSignedDeviceIdentityHMAC din.content = .ok e ∧
      e.details = some d ∧
      demoEnv.decodeADVSignedDeviceIdentity (some d) = .ok account ∧
      account.accountSignatureKey = some ask ∧
      demoEnv.createSignalIdentity (dn.attrs.get "jid") ask = .ok identity ∧
      demoResult.creds.signalIdentities = demoCreds.signalIdentities.getD [] ++ [identity] ∧
      demoResult.creds.signalIdentities.length = (demoCreds.signalIdentities.getD []).length + 1 ∧
      (∀ i, i < (demoCreds.signalIdentities.getD []).length →
        demoResult.creds.signalIdentities[i]? = (demoCreds.signalIdentities.getD [])[i]?) ∧
      demoResult.creds.signalIdentities.getLast? = some identity :=
  signal_identities_append_only demoEnv demoStanza demoCreds demoResult rfl

/-- C8. Outbound confirmation stanza. On every successful run, `reply` is an
`iq` node with attrs `to` = the server domain, `type` = `result`, `id` = the
inbound stanza's `id`, whose content is one `pair-device-sign` node with empty
attrs holding one `device-identity` node; its `key-index` attribute is the
decimal text of the decoded `keyIndex` (`0` when `keyIndex` is absent) and its
content is `encodeSignedDeviceIdentity(creds.account, false)`. -/
theorem reply_stanza_shape (env : Env) (stanza : BinaryNode) (creds : AuthCreds)
    (r : PairingResult) (h : configureSuccessfulPairing env stanza creds = .ok r) :
    ∃ din e d account dd di accountEnc,
      getBinaryNodeChild (getBinaryNodeChild (some stanza) "pair-success") "device-identity"
        = some din ∧
      env.decodeADVSignedDeviceIdentityHMAC din.content = .ok e ∧
      e.details = some d ∧
      env.decodeADVSignedDeviceIdentity (some d) = .ok account ∧
      account.details = some dd ∧
      env.decodeADVDeviceIdentity (some dd) = .ok di ∧
      r.reply = .mk "iq"
        [("to", some env.S_WHATSAPP_NET), ("type", some "result"), ("id", stanza.attrs.get "id")]
        (.nodes [.mk "pair-device-sign" []
          (.nodes [.mk "device-identity"
            [("key-index", some (match di.keyIndex with
                                 | some k => toString k
                                 | none => "0"))]
            (.bytes accountEnc)])]) ∧
      (encodeSignedDeviceIdentity env [r.creds.account] 0 false).2 = .ok accountEnc := by
  obtain ⟨din, _, e, d, account, dd, di, ask, asig, _, hdin, _, he, hd, _, hacc, hdd, hask, hasig,
    hdi, _, _, hr, _, _, _, hreply⟩ := configureSuccessfulPairing_ok_inv h
  refine ⟨din, e, d, account, dd, di,
    env.encodeADVSignedDeviceIdentity { account with
      deviceSignature := some (env.sign creds.signedIdentityKey.priv
        ([0x06, 0x01] ++ dd ++ creds.signedIdentityKey.pub ++ ask)),
      accountSignatureKey := none },
    hdin, he, hd, hacc, hdd, hdi, ?_, ?_⟩
  · rw [hreply]
    cases hk : di.keyIndex with
    | none => rfl
    | some k => simp [orElseText, natToString_ne_empty]
  · rw [encodeSignedDeviceIdentity_result, hr]
    simp [heapRead, hdd, hasig]

/-- C8 on a concrete input: the reply built on `demoStanza`. -/
theorem reply_stanza_shape_witness :
    ∃ din e d account dd di accountEnc,
      getBinaryNodeChild (getBinaryNodeChild (some demoStanza) "pair-success") "device-identity"
        = some din ∧
      demoEnv.decodeADVSignedDeviceIdentityHMAC din.content = .ok e ∧
      e.details = some d ∧
      demoEnv.decodeADVSignedDeviceIdentity (some d) = .ok account ∧
      account.details = some dd ∧
      demoEnv.decodeADVDeviceIdentity (some dd) = .ok di ∧
      demoResult.reply = .mk "iq"
        [("to", some demoEnv.S_WHATSAPP_NET), ("type", some "result"),
          ("id", demoStanza.attrs.get "id")]
        (.nodes [.mk "pair-device-sign" []
          (.nodes [.mk "device-identity"
            [("key-index", some (match di.keyIndex with
                                 | some k => toString k
                                 | none => "0"))]
            (.bytes accountEnc)])]) ∧
      (encodeSignedDeviceIdentity demoEnv [demoResult.creds.account] 0 false).2 = .ok accountEnc :=
  reply_stanza_shape demoEnv demoStanza demoCreds demoResult rfl

/-! ## Stage 1 and the attribution of failures -/

/-- C9. Structural extraction. If the `pair-success` child is missing, or it
lacks a `device-identity` child or a `device` child, the call fails with the
malformed stanza error carrying the stanza, for every choice of the decoding,
keyed hash and signature collaborators (none of them is consulted). The
`platform` and `biz` children play no part in failure: two stanzas with the
same `device-identity` and `device` children fail in exactly the same cases,
with the same error. -/
theorem missing_children_malformed (env : Env) (stanza : BinaryNode) (creds : AuthCreds) :
    (getBinaryNodeChild (some stanza) "pair-success" = none →
      configureSuccessfulPairing env stanza creds =
        .error (.boom "Missing device-identity or device in pair success node"
          (.stanza stanza))) ∧
    (∀ ps, getBinaryNodeChild (some stanza) "pair-success" = some ps →
      (getBinaryNodeChild (some ps) "device-identity" = none ∨
        getBinaryNodeChild (some ps) "device" = none) →
      configureSuccessfulPairing env stanza creds =
        .error (.boom "Missing device-identity or device in pair success node"
          (.stanza stanza))) ∧
    (∀ stanza2 din dn,
      getBinaryNodeChild (getBinaryNodeChild (some stanza) "pair-success") "device-identity"
        = some din →
      getBinaryNodeChild (getBinaryNodeChild (some stanza) "pair-success") "device" = some dn →
      getBinaryNodeChild (getBinaryNodeChild (some stanza2) "pair-success") "device-identity"
        = some din →
      getBinaryNodeChild (getBinaryNodeChild (some stanza2) "pair-success") "device" = some dn →
      ∀ t, configureSuccessfulPairing env stanza creds = .error t ↔
        configureSuccessfulPairing env stanza2 creds = .error t) := by
  refine ⟨?_, ?_, ?_⟩
  · intro hps
    apply configureSuccessfulPairing_stage1
    left
    rw [hps]
    rfl
  · intro ps hps hmiss
    apply configureSuccessfulPairing_stage1
    rw [hps]
    exact hmiss
  · intro stanza2 din dn h1din h1dn h2din h2dn t
    exact ⟨configureSuccessfulPairing_failure_indep h1din h1dn h2din h2dn t,
      configureSuccessfulPairing_failure_indep h2din h2dn h1din h1dn t⟩

/-- C9 on concrete inputs: a stanza without `pair-success`, and one whose
`pair-success` has no `device` child. -/
theorem missing_children_malformed_witness :
    configureSuccessfulPairing demoEnv (.mk "iq" [("id", some "m1")] .absent) demoCreds =
        .error (.boom "Missing device-identity or device in pair success node"
          (.stanza (.mk "iq" [("id", some "m1")] .absent))) ∧
    configureSuccessfulPairing demoEnv
        (.mk "iq" [] (.nodes [.mk "pair-success" []
          (.nodes [.mk "device-identity" [] (.bytes [0, 1, 10, 10, 9])])])) demoCreds =
        .error (.boom "Missing device-identity or device in pair success node"
          (.stanza (.mk "iq" [] (.nodes [.mk "pair-success" []
            (.nodes [.mk "device-identity" [] (.bytes [0, 1, 10, 10, 9])])])))) :=
  ⟨(missing_children_malformed demoEnv (.mk "iq" [("id", some "m1")] .absent) demoCreds).1 rfl,
   (missing_children_malformed demoEnv
      (.mk "iq" [] (.nodes [.mk "pair-success" []
        (.nodes [.mk "device-identity" [] (.bytes [0, 1, 10, 10, 9])])])) demoCreds).2.1
      (.mk "pair-success" [] (.nodes [.mk "device-identity" [] (.bytes [0, 1, 10, 10, 9])]))
      rfl (Or.inr rfl)⟩

/-- C10. Stage attribution of failures. Each failure site of
`configureSuccessfulPairing` produces its own `Boom` message: missing child
nodes, envelope decode failure, HMAC mismatch, account decode failure, device
details decode failure, missing signature material, signature verification
failure, peer identity creation failure. The eight messages are pairwise
different, and a `Boom` determines its message, so the caller can tell the
sites apart. Each decode failure and the identity creation failure is returned
as a `Boom` whose data is the error that was caught: none escapes unwrapped
and none is swallowed. -/
theorem failure_sites_attributed (env : Env) (stanza : BinaryNode) (creds : AuthCreds) :
    ((getBinaryNodeChild (getBinaryNodeChild (some stanza) "pair-success") "device-identity" = none ∨
        getBinaryNodeChild (getBinaryNodeChild (some stanza) "pair-success") "device" = none) →
      configureSuccessfulPairing env stanza creds =
        .error (.boom "Missing device-identity or device in pair success node"
          (.stanza stanza))) ∧
    (∀ din dn,
      getBinaryNodeChild (getBinaryNodeChild (some stanza) "pair-success") "device-identity"
        = some din →
      getBinaryNodeChild (getBinaryNodeChild (some stanza) "pair-success") "device" = some dn →
      (∀ err, env.decodeADVSignedDeviceIdentityHMAC din.content = .error err →
        configureSuccessfulPairing env stanza creds =
          .error (.boom "Failed to decode device identity" (.error err))) ∧
      (∀ e d, env.decodeADVSignedDeviceIdentityHMAC din.content = .ok e → e.details = some d →
        (e.hmac ≠ some (env.hmacSign
            ((if e.accountType = some .HOSTED then [0x06, 0x05] else []) ++ d)
            (env.base64Decode creds.advSecretKey)) →
          configureSuccessfulPairing env stanza creds =
            .error (.boom "Invalid account signature - HMAC mismatch" .none)) ∧
        (e.hmac = some (env.hmacSign
            ((if e.accountType = some .HOSTED then [0x06, 0x05] else []) ++ d)
            (env.base64Decode creds.advSecretKey)) →
          (∀ err, env.decodeADVSignedDeviceIdentity (some d) = .error err →
            configureSuccessfulPairing env stanza creds =
              .error (.boom "Failed to decode account details" (.error err))) ∧
          (∀ account, env.decodeADVSignedDeviceIdentity (some d) = .ok account →
            (∀ err, env.decodeADVDeviceIdentity account.details = .error err →
              configureSuccessfulPairing env stanza creds =
                .error (.boom "Failed to decode device details" (.error err))) ∧
            (∀ dd di, account.details = some dd →
              env.decodeADVDeviceIdentity (some dd) = .ok di →
              ((account.accountSignatureKey = none ∨ account.accountSignature = none) →
                configureSuccessfulPairing env stanza creds =
                  .error (.boom "Missing account signature or key" .none)) ∧
              (∀ ask asig, account.accountSignatureKey = some ask →
                account.accountSignature = some asig →
                (env.verify ask
                    ((if di.deviceType = some .HOSTED then [0x06, 0x05] else [0x06, 0x00]) ++ dd
                      ++ creds.signedIdentityKey.pub) asig = false →
                  configureSuccessfulPairing env stanza creds =
                    .error (.boom "Failed to verify account signature - invalid curve signature"
                      .none)) ∧
                (env.verify ask
                    ((if di.deviceType = some .HOSTED then [0x06, 0x05] else [0x06, 0x00]) ++ dd
                      ++ creds.signedIdentityKey.pub) asig = true →
                  ∀ err, env.createSignalIdentity (dn.attrs.get "jid") ask = .error err →
                    configureSuccessfulPairing env stanza creds =
                      .error (.boom "Failed to create signal identity" (.error err))))))))) ∧
    (["Missing device-identity or device in pair success node",
      "Failed to decode device identity",
      "Invalid account signature - HMAC mismatch",
      "Failed to decode account details",
      "Failed to decode device details",
      "Missing account signature or key",
      "Failed to verify account signature - invalid curve signature",
      "Failed to create signal identity"] : List String).Nodup ∧
    (∀ m1 m2 d1 d2, Thrown.boom m1 d1 = Thrown.boom m2 d2 → m1 = m2 ∧ d1 = d2) := by
  refine ⟨configureSuccessfulPairing_stage1, ?_, by decide, ?_⟩
  · intro din dn hdin hdn
    refine ⟨fun err he => configureSuccessfulPairing_envelope_error hdin hdn he, ?_⟩
    intro e d he hd
    refine ⟨fun hbad => configureSuccessfulPairing_stage2 hdin hdn he hd hbad, ?_⟩
    intro hh
    refine ⟨fun err hacc => configureSuccessfulPairing_account_error hdin hdn he hd hh hacc, ?_⟩
    intro account hacc
    refine ⟨fun err hdi => configureSuccessfulPairing_device_error hdin hdn he hd hh hacc hdi, ?_⟩
    intro dd di hdd hdi
    have key := configureSuccessfulPairing_stage4 hdin hdn he hd hh hacc hdd hdi
    refine ⟨?_, ?_⟩
    · intro habs
      rw [key]
      rcases habs with h | h
      · simp only [h]
      · cases hask : account.accountSignatureKey <;> simp only [h]
    · intro ask asig hask hasig
      refine ⟨?_, ?_⟩
      · intro hv
        rw [key]
        simp only [hask, hasig, hv, Bool.false_eq_true, if_false]
      · intro hv err hid
        rw [key]
        simp only [hask, hasig, hv, if_true, hid]
  · intro m1 m2 d1 d2 h
    cases h
    exact ⟨rfl, rfl⟩

/-- C10 on a concrete input: a one-byte `device-identity` content cannot be
decoded; the failure names the stage and carries the decoder's error. -/
theorem failure_sites_attributed_witness :
    configureSuccessfulPairing demoEnv (demoStanzaWith [0]) demoCreds =
      .error (.boom "Failed to decode device identity" (.error "illegal buffer")) :=
  ((failure_sites_attributed demoEnv (demoStanzaWith [0]) demoCreds).2.1
    (.mk "device-identity" [] (.bytes [0]))
    (.mk "device" [("jid", some "1@s.whatsapp.net")] .absent) rfl rfl).1 "illegal buffer" rfl

/-! ## The payload builder -/

/-- C11. `getWebInfo`: the returned `webSubPlatform` is `DARWIN` exactly when
`syncFullHistory` is set and `browser[0]` is `Mac OS` or `macOS`, `WIN32`
exactly when `syncFullHistory` is set and `browser[0]` is `Windows`, and
`WEB_BROWSER` in every other case; the result does not depend on
`browser[1]`. -/
theorem web_sub_platform_mapping (config : ClientConfig) :
    ((getWebInfo config).webSubPlatform = .DARWIN ↔
      (config.syncFullHistory = some true ∧
        (config.browser.1 = "Mac OS" ∨ config.browser.1 = "macOS"))) ∧
    ((getWebInfo config).webSubPlatform = .WIN32 ↔
      (config.syncFullHistory = some true ∧ config.browser.1 = "Windows")) ∧
    ((getWebInfo config).webSubPlatform = .WEB_BROWSER ↔
      ¬ (config.syncFullHistory = some true ∧
        (config.browser.1 = "Mac OS" ∨ config.browser.1 = "macOS" ∨
          config.browser.1 = "Windows"))) ∧
    (∀ browserType, getWebInfo { config with browser := (config.browser.1, browserType) } =
      getWebInfo config) := by
  have hne1 : ("Windows" : String) ≠ "Mac OS" := by decide
  have hne2 : ("Windows" : String) ≠ "macOS" := by decide
  refine ⟨?_, ?_, ?_, fun _ => rfl⟩
  all_goals
    unfold getWebInfo
    by_cases hs : config.syncFullHistory = some true
    · by_cases h1 : config.browser.1 = "Mac OS"
      · simp [hs, h1]
      · by_cases h2 : config.browser.1 = "macOS"
        · simp [hs, h2]
        · by_cases h3 : config.browser.1 = "Windows"
          · simp [hs, h3]
          · simp [hs, h1, h2, h3]
    · simp [hs]

/-- C11 on concrete inputs: sync requested with `Windows` gives `WIN32`; the
lower-case name `windows` gives `WEB_BROWSER`. -/
theorem web_sub_platform_mapping_witness :
    (getWebInfo demoConfigWindows).webSubPlatform = .WIN32 ∧
    (getWebInfo demoConfigLower).webSubPlatform = .WEB_BROWSER :=
  ⟨(web_sub_platform_mapping demoConfigWindows).2.1.mpr ⟨rfl, rfl⟩,
   (web_sub_platform_mapping demoConfigLower).2.2.1.mpr (by decide)⟩

/-- C12 fails as stated. `MacBook` upper-cased is `MACBOOK`, which is not the
name of any enum member, yet `getPlatformType` returns the `DARWIN` member and
not `CHROME`, because the upper-cased text contains `MAC`. -/
theorem platform_type_exact_match_counterexample :
    demoPayloadEnv.toUpperCase "MacBook" = "MACBOOK" ∧
    demoPayloadEnv.PlatformType "MACBOOK" = none ∧
    getPlatformType demoPayloadEnv "MacBook" = demoPayloadEnv.PlatformType "DARWIN" ∧
    getPlatformType demoPayloadEnv "MacBook" ≠ demoPayloadEnv.PlatformType "CHROME" := by
  decide

/-- C12, amended. `getPlatformType` upper-cases its argument. If the upper-cased
text contains `MAC` or `DARWIN`, the result is the `DARWIN` member. Otherwise it
is the enum member whose name equals the upper-cased text when there is such a
member with a non-zero value, and the `CHROME` member when no enum name
matches. -/
theorem platform_type_resolution (penv : PayloadEnv) (platform : String) :
    ((includes (penv.toUpperCase platform) "MAC" = true ∨
        includes (penv.toUpperCase platform) "DARWIN" = true) →
      getPlatformType penv platform = penv.PlatformType "DARWIN") ∧
    (includes (penv.toUpperCase platform) "MAC" = false →
      includes (penv.toUpperCase platform) "DARWIN" = false →
      (∀ v, penv.PlatformType (penv.toUpperCase platform) = some v → v ≠ 0 →
        getPlatformType penv platform = some v) ∧
      (penv.PlatformType (penv.toUpperCase platform) = none →
        getPlatformType penv platform = penv.PlatformType "CHROME")) := by
  constructor
  · intro h
    unfold getPlatformType
    rcases h with h | h <;> simp [h]
  · intro h1 h2
    unfold getPlatformType
    constructor
    · intro v hv hv0
      simp [h1, h2, hv, orElseEnum, hv0]
    · intro hn
      simp [h1, h2, hn, orElseEnum]

/-- C12, amended, on concrete inputs: `firefox` resolves to the `FIREFOX`
member, and `netscape`, which names no member, to `CHROME`. -/
theorem platform_type_resolution_witness :
    getPlatformType demoPayloadEnv "firefox" = some 2 ∧
    getPlatformType demoPayloadEnv "netscape" = some 1 :=
  ⟨((platform_type_resolution demoPayloadEnv "firefox").2 (by decide) (by decide)).1 2
      (by decide) (by decide),
   ((platform_type_resolution demoPayloadEnv "netscape").2 (by decide) (by decide)).2
      (by decide)⟩

/-- C14. `generateLoginNode`: the payload has `passive` true, `pull` true,
`lidDbMigrated` false, `device` the decoded device index or 0 when the address
has none, `username` the base-10 `parseInt` of the decoded user component when
it is text and the component itself when it is a number; its other fields are
exactly those of `getClientPayload(config)`: `connectType` WIFI_UNKNOWN,
`connectReason` USER_ACTIVATED, the user agent and the web info. -/
theorem login_payload_fields (penv : PayloadEnv) (userJid : String) (config : ClientConfig) :
    generateLoginNode penv userJid config =
      { connectType := .WIFI_UNKNOWN
        connectReason := .USER_ACTIVATED
        userAgent := getUserAgent config
        webInfo := some (getWebInfo config)
        passive := some true
        pull := some true
        username := some (match (penv.jidDecode userJid).user with
                          | .text s => penv.parseInt s 10
                          | .number n => n)
        device := some ((penv.jidDecode userJid).device.getD 0)
        lidDbMigrated := some false
        devicePairingData := none } ∧
    getClientPayload config =
      { connectType := .WIFI_UNKNOWN
        connectReason := .USER_ACTIVATED
        userAgent := getUserAgent config
        webInfo := some (getWebInfo config) } := by
  constructor
  · simp [generateLoginNode, getClientPayload, ClientPayload.fromObject, orElseNat_zero]
  · rfl

/-- C15. `generateRegistrationNode`: whenever both `encodeBigEndian` calls
return, the function returns the payload with `passive` false, `pull` false and
the pairing bundle `eRegid = encodeBigEndian(registrationId)`,
`eSkeyId = encodeBigEndian(keyId, 3)`, `eIdent` the identity public key,
`eSkeyVal` the pre-key public key, `eSkeySig` the pre-key signature and
`buildHash` the digest of the decimal texts of the three version components
joined with a dot (`String.intercalate`); every
returned payload is of that form, `eSkeyId` has exactly 3 bytes when
`encodeBigEndian` keeps the requested width, `buildHash` has 16 bytes when the
digest has; and the result is the same whatever the two private keys are. -/
theorem registration_payload_fields (penv : PayloadEnv) (keys : KeyMaterial)
    (config : ClientConfig) :
    (∀ eRegid eSkeyId, penv.encodeBigEndian keys.registrationId none = .ok eRegid →
      penv.encodeBigEndian keys.signedPreKey.keyId (some 3) = .ok eSkeyId →
      generateRegistrationNode penv keys config = .ok
        { connectType := .WIFI_UNKNOWN
          connectReason := .USER_ACTIVATED
          userAgent := getUserAgent config
          webInfo := some (getWebInfo config)
          passive := some false
          pull := some false
          devicePairingData := some
            { buildHash := penv.md5 (String.intercalate "."
              [toString config.version.1, toString config.version.2.1,
                toString config.version.2.2])
              deviceProps := penv.encodeDeviceProps (companion penv config)
              eRegid := eRegid
              eKeytype := penv.KEY_BUNDLE_TYPE
              eIdent := keys.signedIdentityKey.pub
              eSkeyId := eSkeyId
              eSkeyVal := keys.signedPreKey.keyPair.pub
              eSkeySig := keys.signedPreKey.signature } }) ∧
    (∀ p, generateRegistrationNode penv keys config = .ok p →
      p.passive = some false ∧ p.pull = some false ∧
      ∃ dpd, p.devicePairingData = some dpd ∧
        penv.encodeBigEndian keys.registrationId none = .ok dpd.eRegid ∧
        penv.encodeBigEndian keys.signedPreKey.keyId (some 3) = .ok dpd.eSkeyId ∧
        dpd.eIdent = keys.signedIdentityKey.pub ∧
        dpd.eSkeyVal = keys.signedPreKey.keyPair.pub ∧
        dpd.eSkeySig = keys.signedPreKey.signature ∧
        dpd.buildHash = penv.md5 (String.intercalate "."
              [toString config.version.1, toString config.version.2.1,
                toString config.version.2.2]) ∧
        ((∀ v w b, penv.encodeBigEndian v (some w) = .ok b → b.length = w) →
          dpd.eSkeyId.length = 3) ∧
        ((∀ text, (penv.md5 text).length = 16) → dpd.buildHash.length = 16)) ∧
    (∀ priv1 priv2,
      generateRegistrationNode penv
        { registrationId := keys.registrationId
          signedPreKey :=
            { keyId := keys.signedPreKey.keyId
              keyPair := { pub := keys.signedPreKey.keyPair.pub, priv := priv2 }
              signature := keys.signedPreKey.signature }
          signedIdentityKey := { pub := keys.signedIdentityKey.pub, priv := priv1 } } config =
        generateRegistrationNode penv keys config) := by
  have hjoin : joinVersion config.version = String.intercalate "."
      [toString config.version.1, toString config.version.2.1, toString config.version.2.2] := by
    rfl
  refine ⟨?_, ?_, fun _ _ => rfl⟩
  · intro eRegid eSkeyId h1 h2
    simp [generateRegistrationNode, h1, h2, getClientPayload, ClientPayload.fromObject, hjoin]
  · intro p hp
    unfold generateRegistrationNode at hp
    cases h1 : penv.encodeBigEndian keys.registrationId none with
    | error e => simp [h1] at hp
    | ok eRegid =>
      cases h2 : penv.encodeBigEndian keys.signedPreKey.keyId (some 3) with
      | error e => simp [h1, h2] at hp
      | ok eSkeyId =>
        simp only [h1, h2, Except.ok.injEq] at hp
        subst hp
        refine ⟨rfl, rfl, _, rfl, rfl, rfl, rfl, rfl, rfl, ?_, ?_, ?_⟩
        · show penv.md5 (joinVersion config.version) = _
          rw [hjoin]
        · intro hw
          exact hw _ _ _ h2
        · intro h16
          exact h16 _

/-- C15 on a concrete input: the payload built from `demoKeys` for version
2.3000.1; the registration id 258 becomes `[0, 0, 1, 2]`, the pre-key id 1
becomes `[0, 0, 1]`, and the digest of `demoPayloadEnv` shows the character
codes of the text `2.3000.1`. -/
theorem registration_payload_fields_witness :
    generateRegistrationNode demoPayloadEnv demoKeys demoConfig = .ok
      { connectType := .WIFI_UNKNOWN
        connectReason := .USER_ACTIVATED
        userAgent := getUserAgent demoConfig
        webInfo := some (getWebInfo demoConfig)
        passive := some false
        pull := some false
        devicePairingData := some
          { buildHash := [50, 46, 51, 48, 48, 48, 46, 49, 0, 0, 0, 0, 0, 0, 0, 0]
            deviceProps := [7, 1, 2]
            eRegid := [0, 0, 1, 2]
            eKeytype := [5]
            eIdent := [7]
            eSkeyId := [0, 0, 1]
            eSkeyVal := [41]
            eSkeySig := [43] } } :=
  (registration_payload_fields demoPayloadEnv demoKeys demoConfig).1 [0, 0, 1, 2] [0, 0, 1]
    rfl rfl

/-- C16. In the `DeviceProps` record built by `generateRegistrationNode`,
`requireFullSync` is true for every config, whatever `syncFullHistory` holds;
that record is the one whose encoding the returned payload carries. -/
theorem require_full_sync_always (penv : PayloadEnv) (keys : KeyMaterial)
    (config : ClientConfig) :
    (companion penv config).requireFullSync = true ∧
    (∀ preference,
      (companion penv { config with syncFullHistory := preference }).requireFullSync = true) ∧
    (∀ p, generateRegistrationNode penv keys config = .ok p →
      ∃ dpd, p.devicePairingData = some dpd ∧
        dpd.deviceProps = penv.encodeDeviceProps (companion penv config)) := by
  have key : ∀ x : Option Bool, orElseBool x true = true := by
    intro x
    cases x with
    | none => rfl
    | some b => cases b <;> rfl
  refine ⟨key _, fun _ => key _, ?_⟩
  intro p hp
  unfold generateRegistrationNode at hp
  cases h1 : penv.encodeBigEndian keys.registrationId none with
  | error e => simp [h1] at hp
  | ok eRegid =>
    cases h2 : penv.encodeBigEndian keys.signedPreKey.keyId (some 3) with
    | error e => simp [h1, h2] at hp
    | ok eSkeyId =>
      simp only [h1, h2, Except.ok.injEq] at hp
      subst hp
      exact ⟨_, rfl, rfl⟩

/-- C16 on a concrete input: the caller asked for no full sync, the companion
properties ask for it all the same. -/
theorem require_full_sync_always_witness :
    demoConfig.syncFullHistory = some false ∧
    (companion demoPayloadEnv demoConfig).requireFullSync = true :=
  ⟨rfl, (require_full_sync_always demoPayloadEnv demoKeys demoConfig).1⟩

/-- C14 on a concrete input: the user component `12345` is text and is parsed
to the number 12345; the address has no device index, so `device` is 0. -/
theorem login_payload_fields_witness :
    (generateLoginNode demoPayloadEnv "12345@s.whatsapp.net" demoConfig).username =
        some (.int 12345) ∧
    (generateLoginNode demoPayloadEnv "12345@s.whatsapp.net" demoConfig).device = some 0 := by
  rw [(login_payload_fields demoPayloadEnv "12345@s.whatsapp.net" demoConfig).1]
  decide

/-! ## The credential update: identity fields and the account record -/

/-- C13 fails as stated. On `demoStanzaEmptyAttrs` the `device` node has a `lid`
attribute (the empty text) and the `platform` node has a `name` attribute (the
empty text), yet `creds.me.lid` is the jid and `creds.platform` is `macOS`. -/
theorem identity_fields_present_counterexample :
    (getBinaryNodeChild (getBinaryNodeChild (some demoStanzaEmptyAttrs) "pair-success")
        "device").bind (fun n => n.attrs.get "lid") = some "" ∧
    (getBinaryNodeChild (getBinaryNodeChild (some demoStanzaEmptyAttrs) "pair-success")
        "platform").bind (fun n => n.attrs.get "name") = some "" ∧
    configureSuccessfulPairing demoEnv demoStanzaEmptyAttrs demoCreds = .ok demoResult ∧
    demoResult.creds.me.lid = some "1@s.whatsapp.net" ∧
    demoResult.creds.platform = "macOS" :=
  ⟨rfl, rfl, rfl, rfl, rfl⟩

/-- C13, amended. On every successful run, `creds.me.id` is the `device` node's
`jid` attribute, `creds.me.name` is the `biz` node's `name` attribute (absent
when there is no `biz` node), `creds.me.lid` is the `device` node's `lid`
attribute when it is present and not empty and the jid otherwise, and
`creds.platform` is the `platform` node's `name` attribute when it is present
and not empty and `macOS` otherwise. -/
theorem credential_identity_fields (env : Env) (stanza : BinaryNode) (creds : AuthCreds)
    (r : PairingResult) (h : configureSuccessfulPairing env stanza creds = .ok r) :
    ∃ dn,
      getBinaryNodeChild (getBinaryNodeChild (some stanza) "pair-success") "device" = some dn ∧
      r.creds.me.id = dn.attrs.get "jid" ∧
      r.creds.me.name =
        (getBinaryNodeChild (getBinaryNodeChild (some stanza) "pair-success") "biz").bind
          (fun n => n.attrs.get "name") ∧
      (∀ l, dn.attrs.get "lid" = some l → l ≠ "" → r.creds.me.lid = some l) ∧
      ((dn.attrs.get "lid" = none ∨ dn.attrs.get "lid" = some "") →
        r.creds.me.lid = dn.attrs.get "jid") ∧
      (∀ name,
        (getBinaryNodeChild (getBinaryNodeChild (some stanza) "pair-success") "platform").bind
          (fun n => n.attrs.get "name") = some name →
        name ≠ "" → r.creds.platform = name) ∧
      (((getBinaryNodeChild (getBinaryNodeChild (some stanza) "pair-success") "platform").bind
          (fun n => n.attrs.get "name") = none ∨
        (getBinaryNodeChild (getBinaryNodeChild (some stanza) "pair-success") "platform").bind
          (fun n => n.attrs.get "name") = some "") →
        r.creds.platform = "macOS") := by
  obtain ⟨_, dn, _, _, _, _, _, _, _, _, _, hdn, _, _, _, _, _, _, _, _, _, _, _, hme, _, hpl, _⟩ :=
    configureSuccessfulPairing_ok_inv h
  refine ⟨dn, hdn, by rw [hme], by rw [hme], ?_, ?_, ?_, ?_⟩
  · intro l hl hne
    rw [hme]
    simp [orElseOpt, hl, hne]
  · intro habs
    rw [hme]
    rcases habs with hl | hl <;> simp [orElseOpt, hl]
  · intro name hn hne
    rw [hpl, hn]
    simp [orElseText, hne]
  · intro habs
    rw [hpl]
    rcases habs with hn | hn <;> rw [hn] <;> simp [orElseText]

/-- C13, amended, on a concrete input: `demoStanza` has neither a `lid`
attribute nor a `platform` node. -/
theorem credential_identity_fields_witness :
    ∃ dn,
      getBinaryNodeChild (getBinaryNodeChild (some demoStanza) "pair-success") "device"
        = some dn ∧
      demoResult.creds.me.id = dn.attrs.get "jid" ∧
      demoResult.creds.me.name =
        (getBinaryNodeChild (getBinaryNodeChild (some demoStanza) "pair-success") "biz").bind
          (fun n => n.attrs.get "name") ∧
      (∀ l, dn.attrs.get "lid" = some l → l ≠ "" → demoResult.creds.me.lid = some l) ∧
      ((dn.attrs.get "lid" = none ∨ dn.attrs.get "lid" = some "") →
        demoResult.creds.me.lid = dn.attrs.get "jid") ∧
      (∀ name,
        (getBinaryNodeChild (getBinaryNodeChild (some demoStanza) "pair-success") "platform").bind
          (fun n => n.attrs.get "name") = some name →
        name ≠ "" → demoResult.creds.platform = name) ∧
      (((getBinaryNodeChild (getBinaryNodeChild (some demoStanza) "pair-success") "platform").bind
          (fun n => n.attrs.get "name") = none ∨
        (getBinaryNodeChild (getBinaryNodeChild (some demoStanza) "pair-success") "platform").bind
          (fun n => n.attrs.get "name") = some "") →
        demoResult.creds.platform = "macOS") :=
  credential_identity_fields demoEnv demoStanza demoCreds demoResult rfl

/-- C17. Frame of the countersigned identity. On every successful run,
`creds.account` has `details`, `accountSignatureKey` and `accountSignature`
equal to those of the account record decoded from the envelope, the
`accountSignatureKey` being present, and it differs from the decoded record
only in `deviceSignature`, which is the fresh countersignature whatever the
decoded record carried there. -/
theorem countersigned_account_frame (env : Env) (stanza : BinaryNode) (creds : AuthCreds)
    (r : PairingResult) (h : configureSuccessfulPairing env stanza creds = .ok r) :
    ∃ din e d account dd ask,
      getBinaryNodeChild (getBinaryNodeChild (some stanza) "pair-success") "device-identity"
        = some din ∧
      env.decodeADVSignedDeviceIdentityHMAC din.content = .ok e ∧
      e.details = some d ∧
      env.decodeADVSignedDeviceIdentity (some d) = .ok account ∧
      account.details = some dd ∧
      account.accountSignatureKey = some ask ∧
      r.creds.account.details = account.details ∧
      r.creds.account.accountSignatureKey = account.accountSignatureKey ∧
      r.creds.account.accountSignatureKey = some ask ∧
      r.creds.account.accountSignature = account.accountSignature ∧
      r.creds.account.deviceSignature =
        some (env.sign creds.signedIdentityKey.priv
          ([0x06, 0x01] ++ dd ++ creds.signedIdentityKey.pub ++ ask)) ∧
      (∀ inbound, r.creds.account =
        { ({ account with deviceSignature := inbound } : ADVSignedDeviceIdentity) with
          deviceSignature := some (env.sign creds.signedIdentityKey.priv
            ([0x06, 0x01] ++ dd ++ creds.signedIdentityKey.pub ++ ask)) }) := by
  obtain ⟨din, _, e, d, account, dd, _, ask, _, _, hdin, _, he, hd, _, hacc, hdd, hask, _, _, _, _,
    hr, _⟩ := configureSuccessfulPairing_ok_inv h
  refine ⟨din, e, d, account, dd, ask, hdin, he, hd, hacc, hdd, hask, ?_, ?_, ?_, ?_, ?_, ?_⟩
  · rw [hr]
  · rw [hr]
  · rw [hr]; exact hask
  · rw [hr]
  · rw [hr]
  · intro inbound
    rw [hr]

/-- C17 on a concrete input: the account record returned on `demoStanza`. -/
theorem countersigned_account_frame_witness :
    ∃ din e d account dd ask,
      getBinaryNodeChild (getBinaryNodeChild (some demoStanza) "pair-success") "device-identity"
        = some din ∧
      demoEnv.decodeADVSignedDeviceIdentityHMAC din.content = .ok e ∧
      e.details = some d ∧
      demoEnv.decodeADVSignedDeviceIdentity (some d) = .ok account ∧
      account.details = some dd ∧
      account.accountSignatureKey = some ask ∧
      demoResult.creds.account.details = account.details ∧
      demoResult.creds.account.accountSignatureKey = account.accountSignatureKey ∧
      demoResult.creds.account.accountSignatureKey = some ask ∧
      demoResult.creds.account.accountSignature = account.accountSignature ∧
      demoResult.creds.account.deviceSignature =
        some (demoEnv.sign demoCreds.signedIdentityKey.priv
          ([0x06, 0x01] ++ dd ++ demoCreds.signedIdentityKey.pub ++ ask)) ∧
      (∀ inbound, demoResult.creds.account =
        { ({ account with deviceSignature := inbound } : ADVSignedDeviceIdentity) with
          deviceSignature := some (demoEnv.sign demoCreds.signedIdentityKey.priv
            ([0x06, 0x01] ++ dd ++ demoCreds.signedIdentityKey.pub ++ ask)) }) :=
  countersigned_account_frame demoEnv demoStanza demoCreds demoResult rfl

/-- C18. The invalid record failure of `encodeSignedDeviceIdentity` is
unreachable from `configureSuccessfulPairing`: the call never fails with that
error; and on every path that reaches the re-encoding call (integrity check
passed, the three records decoded, signature material present and verified,
peer identity created) the account record has `details` and `accountSignature`
present, the re-encoding returns, and so does the call. -/
theorem reencode_never_invalid (env : Env) (stanza : BinaryNode) (creds : AuthCreds) :
    (∀ data, configureSuccessfulPairing env stanza creds ≠
      .error (.boom "Invalid account data for encoding" data)) ∧
    (∀ din dn e d account di ask asig identity,
      getBinaryNodeChild (getBinaryNodeChild (some stanza) "pair-success") "device-identity"
        = some din →
      getBinaryNodeChild (getBinaryNodeChild (some stanza) "pair-success") "device" = some dn →
      env.decodeADVSignedDeviceIdentityHMAC din.content = .ok e →
      e.details = some d →
      e.hmac = some (env.hmacSign
        ((if e.accountType = some .HOSTED then [0x06, 0x05] else []) ++ d)
        (env.base64Decode creds.advSecretKey)) →
      env.decodeADVSignedDeviceIdentity (some d) = .ok account →
      env.decodeADVDeviceIdentity account.details = .ok di →
      account.accountSignatureKey = some ask →
      account.accountSignature = some asig →
      env.createSignalIdentity (dn.attrs.get "jid") ask = .ok identity →
      (account.details = none →
        ∃ m, configureSuccessfulPairing env stanza creds = .error (.typeError m)) ∧
      (∀ dd, account.details = some dd →
        env.verify ask
          ((if di.deviceType = some .HOSTED then [0x06, 0x05] else [0x06, 0x00]) ++ dd
            ++ creds.signedIdentityKey.pub) asig = true →
        (∃ out, (encodeSignedDeviceIdentity env
            [{ account with deviceSignature := some (env.sign creds.signedIdentityKey.priv
                ([0x06, 0x01] ++ dd ++ creds.signedIdentityKey.pub ++ ask)) }] 0 false).2
            = .ok out) ∧
        ∃ r, configureSuccessfulPairing env stanza creds = .ok r)) := by
  constructor
  · intro data hcontra
    rcases configureSuccessfulPairing_thrown_cases hcontra with ⟨m, d, ht, hm⟩ | ⟨m, ht⟩
    · cases ht
      revert hm
      decide
    · cases ht
  · intro din dn e d account di ask asig identity hdin hdn he hd hh hacc hdi hask hasig hid
    constructor
    · intro hdd
      rw [hdd] at hdi
      exact ⟨_, configureSuccessfulPairing_account_no_details hdin hdn he hd hh hacc hdd hdi⟩
    · intro dd hdd hv
      rw [hdd] at hdi
      constructor
      · rw [encodeSignedDeviceIdentity_result]
        simp [heapRead, hdd, hasig]
      · refine ⟨assembledResult env stanza creds dn account dd di ask identity, ?_⟩
        rw [configureSuccessfulPairing_stage4 hdin hdn he hd hh hacc hdd hdi]
        simp only [hask, hasig, hv, if_true, hid]

/-- C18 on a concrete input: on `demoStanza` the re-encoding is reached and
returns. -/
theorem reencode_never_invalid_witness :
    (∃ out, (encodeSignedDeviceIdentity demoEnv
        [{ ({ details := some [20], accountSignatureKey := some [30],
              accountSignature := some [6, 0, 20, 7, 30] } : ADVSignedDeviceIdentity) with
           deviceSignature := some (demoEnv.sign demoCreds.signedIdentityKey.priv
            ([0x06, 0x01] ++ [20] ++ demoCreds.signedIdentityKey.pub ++ [30])) }] 0 false).2
        = .ok out) ∧
    ∃ r, configureSuccessfulPairing demoEnv demoStanza demoCreds = .ok r :=
  ((reencode_never_invalid demoEnv demoStanza demoCreds).2
    (.mk "device-identity" [] (.bytes [0, 1, 10, 10, 9]))
    (.mk "device" [("jid", some "1@s.whatsapp.net")] .absent)
    { details := some [10], hmac := some [10, 9], accountType := none } [10]
    { details := some [20], accountSignatureKey := some [30],
      accountSignature := some [6, 0, 20, 7, 30] }
    { deviceType := none, keyIndex := some 3 } [30] [6, 0, 20, 7, 30]
    { name := some "1@s.whatsapp.net", identifierKey := [30] }
    rfl rfl rfl rfl rfl rfl rfl rfl rfl rfl).2 [20] rfl (by decide)

end ValidateConnection
